import Mathlib

/-!
Verification of the Neovim `redraw` event decoder (`src/bridge/events.rs`).

The decoder consumes a dynamic MessagePack value (the `rmpv::Value` tree) and
produces either a list of typed `RedrawEvent`s, a structured `ParseError`, or —
where the Rust code would call `panic!`/`unwrap()` on a failing case — an
explicit `panic` outcome.  All definitions follow the Rust source; the handful
of types that live outside the decoder module (the `rmpv` wire value, the
`skia` color struct, and the editor's style/cursor types) are modelled and
marked as such.
-/

set_option linter.unusedVariables false
set_option linter.unreachableTactic false
set_option linter.unusedTactic false

/-- Model of `rmpv`'s `Utf8String` payload: a wire string either holds valid
UTF-8 (so `into_str` yields the string) or raw bytes that are not valid UTF-8
(so `into_str` yields `None`). -/
inductive WireStr where
  | valid (s : String)
  | invalid (bytes : List Nat)
deriving DecidableEq

/-- Model of the dynamic wire value `rmpv::Value`.  `Str` mirrors
`Value::String` (renamed because `String` is taken by Lean's string type),
`Integer` carries the mathematical value of `PosInt`/`NegInt`, and the two
float variants carry exact rationals standing for the wire float payload
(the decoder only moves floats around, it never computes with them). -/
inductive Value where
  | Nil
  | Boolean (b : Bool)
  | Integer (n : Int)
  | F32 (x : Rat)
  | F64 (x : Rat)
  | Str (s : WireStr)
  | Binary (bytes : List Nat)
  | Array (vs : List Value)
  | Map (pairs : List (Value × Value))
  | Ext (tag : Int) (bytes : List Nat)

/-- Modelled from the external `rmpv` crate: the derived `Debug` rendering of a
`Value`, used by the decoder's `format!("{:?}")` calls.  The exact text never
decides a claim; only its presence inside error messages does. -/
def Value.debugStr : Value → String
  | .Nil => "Nil"
  | .Boolean b => "Boolean(" ++ toString b ++ ")"
  | .Integer n =>
    if 0 ≤ n then "Integer(PosInt(" ++ toString n ++ "))"
    else "Integer(NegInt(" ++ toString n ++ "))"
  | .F32 x => "F32(" ++ toString x ++ ")"
  | .F64 x => "F64(" ++ toString x ++ ")"
  | .Str (.valid s) => "String(Utf8String(Ok(" ++ s ++ ")))"
  | .Str (.invalid bs) => "String(Utf8String(Err(" ++ toString bs ++ ")))"
  | .Binary bs => "Binary(" ++ toString bs ++ ")"
  | .Ext t bs => "Ext(" ++ toString t ++ ", " ++ toString bs ++ ")"
  | .Array vs =>
    "Array([" ++
      String.intercalate (", ") (vs.attach.map (fun x => Value.debugStr x.1)) ++ "])"
  | .Map ps =>
    "Map([" ++
      String.intercalate (", ")
        (ps.attach.map
          (fun x => "(" ++ Value.debugStr x.1.1 ++ ", " ++ Value.debugStr x.1.2 ++ ")"))
      ++ "])"
termination_by v => sizeOf v
decreasing_by
  all_goals simp_wf
  · have h := List.sizeOf_lt_of_mem x.2
    omega
  · obtain ⟨⟨a, b⟩, hx⟩ := x
    have h := List.sizeOf_lt_of_mem hx
    simp at h ⊢
    omega
  · obtain ⟨⟨a, b⟩, hx⟩ := x
    have h := List.sizeOf_lt_of_mem hx
    simp at h ⊢
    omega

/-- Modelled from the external `rmpv` crate: the `Display` rendering of a
`Value`, used by the decoder's `format!("{value}")` in `ParseError`'s
`Display` impl.  The exact text never decides a claim. -/
def Value.displayStr : Value → String
  | .Nil => "nil"
  | .Boolean b => toString b
  | .Integer n => toString n
  | .F32 x => toString x
  | .F64 x => toString x
  | .Str (.valid s) => "\"" ++ s ++ "\""
  | .Str (.invalid bs) => toString bs
  | .Binary bs => toString bs
  | .Ext t bs => "Ext(" ++ toString t ++ ", " ++ toString bs ++ ")"
  | .Array vs =>
    "[" ++ String.intercalate (", ") (vs.attach.map (fun x => Value.displayStr x.1)) ++ "]"
  | .Map ps =>
    "\x7b" ++
      String.intercalate (", ")
        (ps.attach.map (fun x => Value.displayStr x.1.1 ++ ": " ++ Value.displayStr x.1.2))
      ++ "\x7d"
termination_by v => sizeOf v
decreasing_by
  all_goals simp_wf
  · have h := List.sizeOf_lt_of_mem x.2
    omega
  · obtain ⟨⟨a, b⟩, hx⟩ := x
    have h := List.sizeOf_lt_of_mem hx
    simp at h ⊢
    omega
  · obtain ⟨⟨a, b⟩, hx⟩ := x
    have h := List.sizeOf_lt_of_mem hx
    simp at h ⊢
    omega

/-- Debug rendering of a `Vec<Value>`, as produced by `format!("{values:?}")`. -/
def Value.debugVec (vs : List Value) : String :=
  "[" ++ String.intercalate (", ") (vs.map Value.debugStr) ++ "]"

/-- Alias so that the `Format` constructor below can refer to Lean's string
type even though `ParseError` also has a constructor named `String`. -/
abbrev ErrMsg := String

/-- The error enum of `src/bridge/events.rs`. -/
inductive ParseError where
  | Array (v : Value)
  | Map (v : Value)
  | String (v : Value)
  | U64 (v : Value)
  | I64 (v : Value)
  | F64 (v : Value)
  | Bool (v : Value)
  | WindowAnchor (v : Value)
  | Format (debug_text : ErrMsg)

/-- Outcome of running a fallible decoder function: `Ok`, `Err`, or a Rust
panic (from `unwrap()` or an out-of-bounds index). -/
inductive POutcome (α : Type) where
  | ok (a : α)
  | err (e : ParseError)
  | panic

def POutcome.bind {α β : Type} : POutcome α → (α → POutcome β) → POutcome β
  | .ok a, f => f a
  | .err e, _ => .err e
  | .panic, _ => .panic

instance : Monad POutcome where
  pure := POutcome.ok
  bind := POutcome.bind

theorem POutcome.pure_eq_ok {α : Type} (a : α) : (pure a : POutcome α) = .ok a := rfl

theorem POutcome.bind_eq_ok {α β : Type} {x : POutcome α} {f : α → POutcome β} {b : β} :
    (x >>= f) = .ok b ↔ ∃ a, x = .ok a ∧ f a = .ok b := by
  cases x <;> simp [Bind.bind, POutcome.bind]

/-- The `Display` impl of `ParseError` (events.rs lines 28-46), one line per
error with a fixed prefix naming the kind. -/
def ParseError.display : ParseError → ErrMsg
  | .Array v => "invalid array format " ++ v.displayStr
  | .Map v => "invalid map format " ++ v.displayStr
  | .String v => "invalid string format " ++ v.displayStr
  | .U64 v => "invalid u64 format " ++ v.displayStr
  | .I64 v => "invalid i64 format " ++ v.displayStr
  | .F64 v => "invalid f64 format " ++ v.displayStr
  | .Bool v => "invalid bool format " ++ v.displayStr
  | .WindowAnchor v => "invalid window anchor format " ++ v.displayStr
  | .Format debug_text => "invalid event format " ++ debug_text

/-- The `std::error::Error` impl of `ParseError` (events.rs lines 48-52):
`source` always returns `None`. -/
def ParseError.source (_ : ParseError) : Option ParseError := none

/-- The spec's error taxonomy: one tag per `ParseError` category
(`WindowAnchor` is the spec's BadAnchor, `Format` the spec's Shape). -/
inductive ErrorKind where
  | Array | Map | String | U64 | I64 | F64 | Bool | BadAnchor | Shape
deriving DecidableEq

def ParseError.kind : ParseError → ErrorKind
  | .Array _ => .Array
  | .Map _ => .Map
  | .String _ => .String
  | .U64 _ => .U64
  | .I64 _ => .I64
  | .F64 _ => .F64
  | .Bool _ => .Bool
  | .WindowAnchor _ => .BadAnchor
  | .Format _ => .Shape

/-- String prefix test, used to state that an error's kind is recoverable from
its display message. -/
def strStarts (s p : String) : Bool := p.data.isPrefixOf s.data

/-- Recover the error kind from a displayed error message by its fixed
prefix. -/
def kindOfMessage (s : String) : Option ErrorKind :=
  if strStarts s ("invalid array format ") then some .Array
  else if strStarts s ("invalid map format ") then some .Map
  else if strStarts s ("invalid string format ") then some .String
  else if strStarts s ("invalid u64 format ") then some .U64
  else if strStarts s ("invalid i64 format ") then some .I64
  else if strStarts s ("invalid f64 format ") then some .F64
  else if strStarts s ("invalid bool format ") then some .Bool
  else if strStarts s ("invalid window anchor format ") then some .BadAnchor
  else if strStarts s ("invalid event format ") then some .Shape
  else none

/-- Modelled from the external `skia_safe` crate: a four-channel color.  The
`f32` channels are modelled as exact rationals. -/
structure Color4f where
  r : Rat
  g : Rat
  b : Rat
  a : Rat
deriving DecidableEq

/-- Modelled from the spec (§3.2, the editor's `Colors` type, not under
`src/`): three optional colors. -/
structure Colors where
  foreground : Option Color4f
  background : Option Color4f
  special : Option Color4f
deriving DecidableEq

def Colors.new (foreground background special : Option Color4f) : Colors :=
  { foreground, background, special }

/-- Modelled from the spec (§3.2, the editor's `UnderlineStyle`, not under
`src/`). -/
inductive UnderlineStyle where
  | Underline | UnderCurl | UnderDot | UnderDash | UnderDouble
deriving DecidableEq

/-- Modelled from the spec (§3.2/§4.3, the editor's `Style`, not under
`src/`): colors plus boolean attributes, an 8-bit blend and an optional
underline style. -/
structure Style where
  colors : Colors
  reverse : Bool
  italic : Bool
  bold : Bool
  strikethrough : Bool
  blend : Nat
  underline : Option UnderlineStyle
deriving DecidableEq

/-- Modelled from the spec (§4.3): `Style::new` starts with the given colors,
all booleans false, blend 0 and no underline. -/
def Style.new (colors : Colors) : Style :=
  { colors, reverse := false, italic := false, bold := false,
    strikethrough := false, blend := 0, underline := none }

/-- Modelled from the spec (§3.2, the editor's `CursorShape`, not under
`src/`): the documented cursor shape names. -/
inductive CursorShape where
  | Block | Horizontal | Vertical
deriving DecidableEq

/-- Modelled from the spec: lift a wire shape name to a `CursorShape`,
unknown names yielding none. -/
def CursorShape.from_type_name : String → Option CursorShape
  | "block" => some .Block
  | "horizontal" => some .Horizontal
  | "vertical" => some .Vertical
  | _ => none

/-- Modelled from the spec (§3.2, the editor's `CursorMode`, not under
`src/`): all fields optional, `cell_percentage` a fraction. -/
structure CursorMode where
  shape : Option CursorShape
  cell_percentage : Option Rat
  blinkwait : Option Nat
  blinkon : Option Nat
  blinkoff : Option Nat
  style_id : Option Nat
deriving DecidableEq

def CursorMode.default : CursorMode :=
  { shape := none, cell_percentage := none, blinkwait := none,
    blinkon := none, blinkoff := none, style_id := none }

/-- One cell of a `grid_line` event (events.rs lines 54-66). -/
structure GridLineCell where
  text : String
  highlight_id : Option Nat
  rep : Option Nat
deriving DecidableEq

/-- `StyledContent` (events.rs line 68). -/
abbrev StyledContent := List (Nat × String)

/-- `MessageKind` (events.rs lines 70-85). -/
inductive MessageKind where
  | Unknown
  | Confirm
  | ConfirmSubstitute
  | Error
  | Echo
  | EchoMessage
  | EchoError
  | LuaError
  | RpcError
  | ReturnPrompt
  | QuickFix
  | SearchCount
  | Warning
deriving DecidableEq

/-- `MessageKind::parse` (events.rs lines 87-105). -/
def MessageKind.parse : String → MessageKind
  | "confirm" => .Confirm
  | "confirm_sub" => .ConfirmSubstitute
  | "emsg" => .Error
  | "echo" => .Echo
  | "echomsg" => .EchoMessage
  | "echoerr" => .EchoError
  | "lua_error" => .LuaError
  | "rpc_error" => .RpcError
  | "return_prompt" => .ReturnPrompt
  | "quickfix" => .QuickFix
  | "search_count" => .SearchCount
  | "wmsg" => .Warning
  | _ => .Unknown

/-- `GuiOption` (events.rs lines 107-121). -/
inductive GuiOption where
  | ArabicShape (b : Bool)
  | AmbiWidth (s : String)
  | Emoji (b : Bool)
  | GuiFont (s : String)
  | GuiFontSet (s : String)
  | GuiFontWide (s : String)
  | LineSpace (x : Rat)
  | Pumblend (n : Nat)
  | ShowTabLine (n : Nat)
  | TermGuiColors (b : Bool)
  | Unknown (name : String) (value : Value)

/-- `WindowAnchor` (events.rs lines 123-130). -/
inductive WindowAnchor where
  | NorthWest | NorthEast | SouthWest | SouthEast | Absolute
deriving DecidableEq

/-- `EditorMode` (events.rs lines 132-145). -/
inductive EditorMode where
  | Normal | Insert | Visual | Replace | CmdLine
  | Unknown (s : String)
deriving DecidableEq

/-- The closed union of typed redraw events (events.rs lines 150-419).
Constructor and field names follow the Rust enum; `GridLineCell.rep` stands
for the Rust field `repeat` (a Lean keyword). -/
inductive RedrawEvent where
  | SetTitle (title : String)
  | ModeInfoSet (cursor_modes : List CursorMode)
  | OptionSet (gui_option : GuiOption)
  | ModeChange (mode : EditorMode) (mode_index : Nat)
  | MouseOn
  | MouseOff
  | BusyStart
  | BusyStop
  | Flush
  | Resize (grid width height : Nat)
  | DefaultColorsSet (colors : Colors)
  | HighlightAttributesDefine (id : Nat) (style : Style)
  | GridLine (grid row column_start : Nat) (cells : List GridLineCell)
  | Clear (grid : Nat)
  | Destroy (grid : Nat)
  | CursorGoto (grid row column : Nat)
  | Scroll (grid top bottom left right : Nat) (rows columns : Int)
  | WindowPosition (grid start_row start_column width height : Nat)
  | WindowFloatPosition (grid : Nat) (anchor : WindowAnchor) (anchor_grid : Nat)
      (anchor_row anchor_column : Rat) (mouse_enabled : Bool) (z_index : Nat)
      (comp_index screen_row screen_col : Option Nat)
  | WindowExternalPosition (grid : Nat)
  | WindowHide (grid : Nat)
  | WindowClose (grid : Nat)
  | MessageSetPosition (grid row : Nat) (scrolled : Bool)
      (separator_character : String) (z_index comp_index : Option Nat)
  | WindowViewport (grid : Nat) (top_line bottom_line current_line current_column : Rat)
      (line_count scroll_delta : Option Rat)
  | WindowViewportMargins (grid top bottom left right : Nat)
  | CommandLineShow (content : StyledContent) (position : Nat)
      (first_character prompt : String) (indent level : Nat)
  | CommandLinePosition (position level : Nat)
  | CommandLineSpecialCharacter (character : String) (shift : Bool) (level : Nat)
  | CommandLineHide
  | CommandLineBlockShow (lines : List StyledContent)
  | CommandLineBlockAppend (line : StyledContent)
  | CommandLineBlockHide
  | MessageShow (kind : MessageKind) (content : StyledContent) (replace_last : Bool)
  | MessageClear
  | MessageShowMode (content : StyledContent)
  | MessageShowCommand (content : StyledContent)
  | MessageRuler (content : StyledContent)
  | MessageHistoryShow (entries : List (MessageKind × StyledContent))
  | Suspend
  | NeovideSetRedraw (b : Bool)

/-- `unpack_color` (events.rs lines 421-432): narrow the packed integer to
32 bits (the `as u32` cast), extract the three 8-bit channels and normalize.
The `f32` divisions are modelled as exact rational divisions. -/
def unpack_color (packed_color : Nat) : Color4f :=
  let packed : Nat := packed_color % 2 ^ 32
  let r : Nat := (packed &&& 0x00ff0000) >>> 16
  let g : Nat := (packed &&& 0xff00) >>> 8
  let b : Nat := packed &&& 0xff
  { r := (r : Rat) / 255, g := (g : Rat) / 255, b := (b : Rat) / 255, a := 1 }

/-- The fill loop of `extract_values` (events.rs lines 440-444): values at
index < REQ fill the required slots, the rest are dropped. -/
def ev_loop (REQ : Nat) : Nat → List Value → List Value → List Value
  | _, [], req => req
  | index, v :: rest, req =>
    if index < REQ then ev_loop REQ (index + 1) rest (req.set index v)
    else ev_loop REQ (index + 1) rest req

/-- `extract_values` (events.rs lines 434-448). -/
def extract_values (REQ : Nat) (values : List Value) : POutcome (List Value) :=
  if REQ > values.length then .err (.Format (Value.debugVec values))
  else .ok (ev_loop REQ 0 values (List.replicate REQ .Nil))

/-- The fill loop of `extract_values_with_optional` (events.rs lines 459-465).
A value at index ≥ REQ is written at `optional_values[index - REQ]`, which in
Rust panics when that slot index is not below OPT. -/
def evwo_loop (REQ : Nat) :
    Nat → List Value → List Value → List (Option Value) →
    POutcome (List Value × List (Option Value))
  | _, [], req, opt => .ok (req, opt)
  | index, v :: rest, req, opt =>
    if index < REQ then evwo_loop REQ (index + 1) rest (req.set index v) opt
    else if index - REQ < opt.length then
      evwo_loop REQ (index + 1) rest req (opt.set (index - REQ) (some v))
    else .panic

/-- `extract_values_with_optional` (events.rs lines 450-472). -/
def extract_values_with_optional (REQ OPT : Nat) (values : List Value) :
    POutcome (List Value × List (Option Value)) :=
  if REQ > values.length then .err (.Format (Value.debugVec values))
  else evwo_loop REQ 0 values (List.replicate REQ .Nil) (List.replicate OPT none)

/-- `parse_array` (events.rs lines 474-476): `rmpv`'s `TryInto<Vec<Value>>`
succeeds exactly on `Value::Array`. -/
def parse_array (array_value : Value) : POutcome (List Value) :=
  match array_value with
  | .Array vs => .ok vs
  | v => .err (.Array v)

/-- `parse_map` (events.rs lines 478-480). -/
def parse_map (map_value : Value) : POutcome (List (Value × Value)) :=
  match map_value with
  | .Map ps => .ok ps
  | v => .err (.Map v)

/-- `parse_string` (events.rs lines 482-487): a wire string with invalid
UTF-8 content becomes the single replacement character U+FFFD. -/
def parse_string (string_value : Value) : POutcome String :=
  match string_value with
  | .Str (.valid s) => .ok s
  | .Str (.invalid _) => .ok ("�")
  | v => .err (.String v)

/-- `parse_u64` (events.rs lines 489-491): `rmpv`'s `TryInto<u64>` succeeds
exactly on non-negative wire integers. -/
def parse_u64 (u64_value : Value) : POutcome Nat :=
  match u64_value with
  | .Integer n => if 0 ≤ n then .ok n.toNat else .err (.U64 (.Integer n))
  | v => .err (.U64 v)

/-- `parse_i64` (events.rs lines 493-495): `rmpv`'s `TryInto<i64>` succeeds on
wire integers that fit in an `i64` (negative wire integers always do). -/
def parse_i64 (i64_value : Value) : POutcome Int :=
  match i64_value with
  | .Integer n =>
    if n ≤ 9223372036854775807 then .ok n else .err (.I64 (.Integer n))
  | v => .err (.I64 v)

/-- `parse_f64` (events.rs lines 497-499): `rmpv`'s `TryInto<f64>` accepts
both float widths. -/
def parse_f64 (f64_value : Value) : POutcome Rat :=
  match f64_value with
  | .F32 x => .ok x
  | .F64 x => .ok x
  | v => .err (.F64 v)

/-- `parse_bool` (events.rs lines 501-503). -/
def parse_bool (bool_value : Value) : POutcome Bool :=
  match bool_value with
  | .Boolean b => .ok b
  | v => .err (.Bool v)

/-- `Option::transpose` over a decoder result, as used for the optional
trailing parameters. -/
def transpose_opt {α : Type} : Option (POutcome α) → POutcome (Option α)
  | none => .ok none
  | some (.ok a) => .ok (some a)
  | some (.err e) => .err e
  | some .panic => .panic

/-- `parse_set_title` (events.rs lines 505-511).  In every parser the
`| _ => .panic` arm of the arity match models the `try_into().unwrap()` in
`extract_values`, which cannot fail because the returned vector has exactly
REQ elements. -/
def parse_set_title (set_title_arguments : List Value) : POutcome RedrawEvent := do
  match ← extract_values 1 set_title_arguments with
  | [title] => return .SetTitle (← parse_string title)
  | _ => POutcome.panic

/-- One `(name, value)` entry of a `mode_info_set` per-mode map
(events.rs lines 523-545): recognized keys update the cursor mode, unknown
keys are ignored. -/
def applyModeInfoAttr (mode_info : CursorMode) (pair : Value × Value) :
    POutcome CursorMode := do
  let name ← parse_string pair.1
  match name with
  | "cursor_shape" =>
    return { mode_info with shape := CursorShape.from_type_name (← parse_string pair.2) }
  | "cell_percentage" =>
    return { mode_info with cell_percentage := some (((← parse_u64 pair.2) : Rat) / 100) }
  | "blinkwait" => return { mode_info with blinkwait := some (← parse_u64 pair.2) }
  | "blinkon" => return { mode_info with blinkon := some (← parse_u64 pair.2) }
  | "blinkoff" => return { mode_info with blinkoff := some (← parse_u64 pair.2) }
  | "attr_id" => return { mode_info with style_id := some (← parse_u64 pair.2) }
  | _ => return mode_info

/-- One element of the `mode_info_set` mode array (events.rs lines 519-547). -/
def parse_one_mode_info (mode_info_value : Value) : POutcome CursorMode := do
  let info_map ← parse_map mode_info_value
  info_map.foldlM applyModeInfoAttr CursorMode.default

/-- `parse_mode_info_set` (events.rs lines 513-551). -/
def parse_mode_info_set (mode_info_set_arguments : List Value) : POutcome RedrawEvent := do
  match ← extract_values 2 mode_info_set_arguments with
  | [_cursor_style_enabled, mode_info] => do
    let mode_info_values ← parse_array mode_info
    return .ModeInfoSet (← mode_info_values.mapM parse_one_mode_info)
  | _ => POutcome.panic

/-- `parse_option_set` (events.rs lines 553-573). -/
def parse_option_set (option_set_arguments : List Value) : POutcome RedrawEvent := do
  match ← extract_values 2 option_set_arguments with
  | [name_value, value] => do
    let name ← parse_string name_value
    match name with
    | "arabicshape" => return .OptionSet (.ArabicShape (← parse_bool value))
    | "ambiwidth" => return .OptionSet (.AmbiWidth (← parse_string value))
    | "emoji" => return .OptionSet (.Emoji (← parse_bool value))
    | "guifont" => return .OptionSet (.GuiFont (← parse_string value))
    | "guifontset" => return .OptionSet (.GuiFontSet (← parse_string value))
    | "guifontwide" => return .OptionSet (.GuiFontWide (← parse_string value))
    | "linespace" => return .OptionSet (.LineSpace (← parse_f64 value))
    | "pumblend" => return .OptionSet (.Pumblend (← parse_u64 value))
    | "showtabline" => return .OptionSet (.ShowTabLine (← parse_u64 value))
    | "termguicolors" => return .OptionSet (.TermGuiColors (← parse_bool value))
    | _ => return .OptionSet (.Unknown name value)
  | _ => POutcome.panic

/-- `parse_mode_change` (events.rs lines 575-590). -/
def parse_mode_change (mode_change_arguments : List Value) : POutcome RedrawEvent := do
  match ← extract_values 2 mode_change_arguments with
  | [mode, mode_index] => do
    let mode_name ← parse_string mode
    let idx ← parse_u64 mode_index
    return .ModeChange
      (match mode_name with
       | "normal" => .Normal
       | "insert" => .Insert
       | "visual" => .Visual
       | "replace" => .Replace
       | "cmdline_normal" => .CmdLine
       | _ => .Unknown mode_name)
      idx
  | _ => POutcome.panic

/-- `parse_grid_resize` (events.rs lines 592-600). -/
def parse_grid_resize (grid_resize_arguments : List Value) : POutcome RedrawEvent := do
  match ← extract_values 3 grid_resize_arguments with
  | [grid_id, width, height] =>
    return .Resize (← parse_u64 grid_id) (← parse_u64 width) (← parse_u64 height)
  | _ => POutcome.panic

/-- `parse_default_colors` (events.rs lines 602-613): the two terminal colors
are extracted but never parsed. -/
def parse_default_colors (default_colors_arguments : List Value) : POutcome RedrawEvent := do
  match ← extract_values 5 default_colors_arguments with
  | [foreground, background, special, _term_foreground, _term_background] =>
    return .DefaultColorsSet
      (Colors.mk
        (some (unpack_color (← parse_u64 foreground)))
        (some (unpack_color (← parse_u64 background)))
        (some (unpack_color (← parse_u64 special))))
  | _ => POutcome.panic

/-- One attribute of a `hl_attr_define` style map (events.rs lines 620-660).
The Rust code matches `(name.as_str().unwrap(), value)`: a map key that is a
wire string with invalid UTF-8 makes the `unwrap()` panic, and the
`as_u64().unwrap()` on the color/blend integers panics when the wire integer
is negative.  A non-string key only logs. -/
def applyStyleAttr (style : Style) (attr : Value × Value) : POutcome Style :=
  match attr with
  | (.Str (.valid name), value) =>
    match name, value with
    | "foreground", .Integer packed_color =>
      if 0 ≤ packed_color then
        .ok { style with colors :=
          { style.colors with foreground := some (unpack_color packed_color.toNat) } }
      else .panic
    | "background", .Integer packed_color =>
      if 0 ≤ packed_color then
        .ok { style with colors :=
          { style.colors with background := some (unpack_color packed_color.toNat) } }
      else .panic
    | "special", .Integer packed_color =>
      if 0 ≤ packed_color then
        .ok { style with colors :=
          { style.colors with special := some (unpack_color packed_color.toNat) } }
      else .panic
    | "reverse", .Boolean reverse => .ok { style with reverse }
    | "italic", .Boolean italic => .ok { style with italic }
    | "bold", .Boolean bold => .ok { style with bold }
    | "strikethrough", .Boolean strikethrough => .ok { style with strikethrough }
    | "blend", .Integer blend =>
      if 0 ≤ blend then .ok { style with blend := blend.toNat % 256 } else .panic
    | "underline", .Boolean true => .ok { style with underline := some .Underline }
    | "undercurl", .Boolean true => .ok { style with underline := some .UnderCurl }
    | "underdotted", .Boolean true => .ok { style with underline := some .UnderDot }
    | "underdot", .Boolean true => .ok { style with underline := some .UnderDot }
    | "underdashed", .Boolean true => .ok { style with underline := some .UnderDash }
    | "underdash", .Boolean true => .ok { style with underline := some .UnderDash }
    | "underdouble", .Boolean true => .ok { style with underline := some .UnderDouble }
    | "underlineline", .Boolean true => .ok { style with underline := some .UnderDouble }
    | _, _ => .ok style
  | (.Str (.invalid _), _) => .panic
  | _ => .ok style

/-- `parse_style` (events.rs lines 615-664). -/
def parse_style (style_map : Value) (_info_array : Value) : POutcome Style := do
  let attributes ← parse_map style_map
  attributes.foldlM applyStyleAttr (Style.new (Colors.new none none none))

/-- `parse_hl_attr_define` (events.rs lines 666-674): the style map is parsed
before the id. -/
def parse_hl_attr_define (hl_attr_define_arguments : List Value) : POutcome RedrawEvent := do
  match ← extract_values 4 hl_attr_define_arguments with
  | [id, attributes, _terminal_attributes, infos] => do
    let style ← parse_style attributes infos
    return .HighlightAttributesDefine (← parse_u64 id) style
  | _ => POutcome.panic

/-- `parse_grid_line_cell` (events.rs lines 676-704): element 0 is the text
(parsed last), elements 1 and 2 the optional highlight id and repeat count. -/
def parse_grid_line_cell (grid_line_cell : Value) : POutcome GridLineCell := do
  let cell_contents ← parse_array grid_line_cell
  match cell_contents with
  | [] => POutcome.err (.Format (Value.debugVec []))
  | text_value :: _ => do
    let highlight_id ← transpose_opt ((cell_contents[1]?).map parse_u64)
    let rep ← transpose_opt ((cell_contents[2]?).map parse_u64)
    return .mk (← parse_string text_value) highlight_id rep

/-- `parse_grid_line` (events.rs lines 706-718). -/
def parse_grid_line (grid_line_arguments : List Value) : POutcome RedrawEvent := do
  match ← extract_values 4 grid_line_arguments with
  | [grid_id, row, column_start, cells] =>
    return .GridLine (← parse_u64 grid_id) (← parse_u64 row) (← parse_u64 column_start)
      (← (← parse_array cells).mapM parse_grid_line_cell)
  | _ => POutcome.panic

/-- `parse_grid_clear` (events.rs lines 720-726). -/
def parse_grid_clear (grid_clear_arguments : List Value) : POutcome RedrawEvent := do
  match ← extract_values 1 grid_clear_arguments with
  | [grid_id] => return .Clear (← parse_u64 grid_id)
  | _ => POutcome.panic

/-- `parse_grid_destroy` (events.rs lines 728-734). -/
def parse_grid_destroy (grid_destroy_arguments : List Value) : POutcome RedrawEvent := do
  match ← extract_values 1 grid_destroy_arguments with
  | [grid_id] => return .Destroy (← parse_u64 grid_id)
  | _ => POutcome.panic

/-- The `validate` closure of `parse_grid_cursor_goto` (events.rs lines
738-745): clamp a negative coordinate to 0, then cast to `u64`. -/
def validate_coord (v : Int) : Nat := if v < 0 then 0 else v.toNat

/-- `parse_grid_cursor_goto` (events.rs lines 736-751). -/
def parse_grid_cursor_goto (cursor_goto_arguments : List Value) : POutcome RedrawEvent := do
  match ← extract_values 3 cursor_goto_arguments with
  | [grid_id, row, column] => do
    let grid ← parse_u64 grid_id
    let row ← POutcome.ok (validate_coord (← parse_i64 row))
    let column ← POutcome.ok (validate_coord (← parse_i64 column))
    return .CursorGoto grid row column
  | _ => POutcome.panic

/-- `parse_grid_scroll` (events.rs lines 753-764). -/
def parse_grid_scroll (grid_scroll_arguments : List Value) : POutcome RedrawEvent := do
  match ← extract_values 7 grid_scroll_arguments with
  | [grid_id, top, bottom, left, right, rows, columns] =>
    return .Scroll (← parse_u64 grid_id) (← parse_u64 top) (← parse_u64 bottom)
      (← parse_u64 left) (← parse_u64 right) (← parse_i64 rows) (← parse_i64 columns)
  | _ => POutcome.panic

/-- `parse_win_pos` (events.rs lines 766-777). -/
def parse_win_pos (win_pos_arguments : List Value) : POutcome RedrawEvent := do
  match ← extract_values 6 win_pos_arguments with
  | [grid, _window, start_row, start_column, width, height] =>
    return .WindowPosition (← parse_u64 grid) (← parse_u64 start_row)
      (← parse_u64 start_column) (← parse_u64 width) (← parse_u64 height)
  | _ => POutcome.panic

/-- `parse_window_anchor` (events.rs lines 779-788). -/
def parse_window_anchor (value : Value) : POutcome WindowAnchor := do
  let value_str ← parse_string value
  match value_str with
  | "NW" => return .NorthWest
  | "NE" => return .NorthEast
  | "SW" => return .SouthWest
  | "SE" => return .SouthEast
  | _ => POutcome.err (.WindowAnchor (.Str (.valid value_str)))

/-- `parse_win_float_pos` (events.rs lines 790-808). -/
def parse_win_float_pos (win_float_pos_arguments : List Value) : POutcome RedrawEvent := do
  match ← extract_values_with_optional 8 3 win_float_pos_arguments with
  | ([grid, _window, anchor, anchor_grid, anchor_row, anchor_column, mouse_enabled, z_index],
     [comp_index, screen_row, screen_col]) =>
    return .WindowFloatPosition (← parse_u64 grid) (← parse_window_anchor anchor)
      (← parse_u64 anchor_grid) (← parse_f64 anchor_row) (← parse_f64 anchor_column)
      (← parse_bool mouse_enabled) (← parse_u64 z_index)
      (← transpose_opt (comp_index.map parse_u64))
      (← transpose_opt (screen_row.map parse_u64))
      (← transpose_opt (screen_col.map parse_u64))
  | _ => POutcome.panic

/-- `parse_win_external_pos` (events.rs lines 810-816). -/
def parse_win_external_pos (win_external_pos_arguments : List Value) : POutcome RedrawEvent := do
  match ← extract_values 2 win_external_pos_arguments with
  | [grid, _window] => return .WindowExternalPosition (← parse_u64 grid)
  | _ => POutcome.panic

/-- `parse_win_hide` (events.rs lines 818-824). -/
def parse_win_hide (win_hide_arguments : List Value) : POutcome RedrawEvent := do
  match ← extract_values 1 win_hide_arguments with
  | [grid] => return .WindowHide (← parse_u64 grid)
  | _ => POutcome.panic

/-- `parse_win_close` (events.rs lines 826-832). -/
def parse_win_close (win_close_arguments : List Value) : POutcome RedrawEvent := do
  match ← extract_values 1 win_close_arguments with
  | [grid] => return .WindowClose (← parse_u64 grid)
  | _ => POutcome.panic

/-- `parse_msg_set_pos` (events.rs lines 834-846). -/
def parse_msg_set_pos (msg_set_pos_arguments : List Value) : POutcome RedrawEvent := do
  match ← extract_values_with_optional 4 2 msg_set_pos_arguments with
  | ([grid, row, scrolled, separator_character], [z_index, comp_index]) =>
    return .MessageSetPosition (← parse_u64 grid) (← parse_u64 row)
      (← parse_bool scrolled) (← parse_string separator_character)
      (← transpose_opt (z_index.map parse_u64))
      (← transpose_opt (comp_index.map parse_u64))
  | _ => POutcome.panic

/-- `parse_win_viewport` (events.rs lines 848-863). -/
def parse_win_viewport (win_viewport_arguments : List Value) : POutcome RedrawEvent := do
  match ← extract_values_with_optional 6 2 win_viewport_arguments with
  | ([grid, _window, top_line, bottom_line, current_line, current_column],
     [line_count, scroll_delta]) =>
    return .WindowViewport (← parse_u64 grid) (← parse_f64 top_line)
      (← parse_f64 bottom_line) (← parse_f64 current_line) (← parse_f64 current_column)
      (← transpose_opt (line_count.map parse_f64))
      (← transpose_opt (scroll_delta.map parse_f64))
  | _ => POutcome.panic

/-- `parse_win_viewport_margins` (events.rs lines 865-875). -/
def parse_win_viewport_margins (win_viewport_margins_arguments : List Value) :
    POutcome RedrawEvent := do
  match ← extract_values 6 win_viewport_margins_arguments with
  | [grid, _window, top, bottom, left, right] =>
    return .WindowViewportMargins (← parse_u64 grid) (← parse_u64 top)
      (← parse_u64 bottom) (← parse_u64 left) (← parse_u64 right)
  | _ => POutcome.panic

/-- One `(style_id, text)` pair of a styled-content array
(events.rs lines 880-884). -/
def parse_styled_tuple (tuple : Value) : POutcome (Nat × String) := do
  match ← extract_values 2 (← parse_array tuple) with
  | [style_id, text] => return ((← parse_u64 style_id), (← parse_string text))
  | _ => POutcome.panic

/-- `parse_styled_content` (events.rs lines 877-886). -/
def parse_styled_content (line : Value) : POutcome StyledContent := do
  (← parse_array line).mapM parse_styled_tuple

/-- `parse_cmdline_show` (events.rs lines 888-900). -/
def parse_cmdline_show (cmdline_show_arguments : List Value) : POutcome RedrawEvent := do
  match ← extract_values 6 cmdline_show_arguments with
  | [content, position, first_character, prompt, indent, level] =>
    return .CommandLineShow (← parse_styled_content content) (← parse_u64 position)
      (← parse_string first_character) (← parse_string prompt)
      (← parse_u64 indent) (← parse_u64 level)
  | _ => POutcome.panic

/-- `parse_cmdline_pos` (events.rs lines 902-909). -/
def parse_cmdline_pos (cmdline_pos_arguments : List Value) : POutcome RedrawEvent := do
  match ← extract_values 2 cmdline_pos_arguments with
  | [position, level] => return .CommandLinePosition (← parse_u64 position) (← parse_u64 level)
  | _ => POutcome.panic

/-- `parse_cmdline_special_char` (events.rs lines 911-919). -/
def parse_cmdline_special_char (cmdline_special_char_arguments : List Value) :
    POutcome RedrawEvent := do
  match ← extract_values 3 cmdline_special_char_arguments with
  | [character, shift, level] =>
    return .CommandLineSpecialCharacter (← parse_string character)
      (← parse_bool shift) (← parse_u64 level)
  | _ => POutcome.panic

/-- `parse_cmdline_block_show` (events.rs lines 921-930). -/
def parse_cmdline_block_show (cmdline_block_show_arguments : List Value) :
    POutcome RedrawEvent := do
  match ← extract_values 1 cmdline_block_show_arguments with
  | [lines] => return .CommandLineBlockShow (← (← parse_array lines).mapM parse_styled_content)
  | _ => POutcome.panic

/-- `parse_cmdline_block_append` (events.rs lines 932-938). -/
def parse_cmdline_block_append (cmdline_block_append_arguments : List Value) :
    POutcome RedrawEvent := do
  match ← extract_values 1 cmdline_block_append_arguments with
  | [line] => return .CommandLineBlockAppend (← parse_styled_content line)
  | _ => POutcome.panic

/-- `parse_msg_show` (events.rs lines 940-948). -/
def parse_msg_show (msg_show_arguments : List Value) : POutcome RedrawEvent := do
  match ← extract_values 3 msg_show_arguments with
  | [kind, content, replace_last] =>
    return .MessageShow (MessageKind.parse (← parse_string kind))
      (← parse_styled_content content) (← parse_bool replace_last)
  | _ => POutcome.panic

/-- `parse_msg_showmode` (events.rs lines 950-956). -/
def parse_msg_showmode (msg_showmode_arguments : List Value) : POutcome RedrawEvent := do
  match ← extract_values 1 msg_showmode_arguments with
  | [content] => return .MessageShowMode (← parse_styled_content content)
  | _ => POutcome.panic

/-- `parse_msg_showcmd` (events.rs lines 958-964). -/
def parse_msg_showcmd (msg_showcmd_arguments : List Value) : POutcome RedrawEvent := do
  match ← extract_values 1 msg_showcmd_arguments with
  | [content] => return .MessageShowCommand (← parse_styled_content content)
  | _ => POutcome.panic

/-- `parse_msg_ruler` (events.rs lines 966-972). -/
def parse_msg_ruler (msg_ruler_arguments : List Value) : POutcome RedrawEvent := do
  match ← extract_values 1 msg_ruler_arguments with
  | [content] => return .MessageRuler (← parse_styled_content content)
  | _ => POutcome.panic

/-- `parse_msg_history_entry` (events.rs lines 974-981). -/
def parse_msg_history_entry (entry : Value) : POutcome (MessageKind × StyledContent) := do
  match ← extract_values 2 (← parse_array entry) with
  | [kind, content] =>
    return (MessageKind.parse (← parse_string kind), (← parse_styled_content content))
  | _ => POutcome.panic

/-- `parse_msg_history_show` (events.rs lines 983-992). -/
def parse_msg_history_show (msg_history_show_arguments : List Value) : POutcome RedrawEvent := do
  match ← extract_values 1 msg_history_show_arguments with
  | [entries] =>
    return .MessageHistoryShow (← (← parse_array entries).mapM parse_msg_history_entry)
  | _ => POutcome.panic

/-- The name-dispatch table of `parse_redraw_event` (events.rs lines
1007-1049): `none` for `set_icon` and for unrecognized names (both are
silently skipped), `some` of the per-event result otherwise. -/
def dispatchOne (event_name : String) (event_parameters : List Value) :
    Option (POutcome RedrawEvent) :=
  match event_name with
  | "set_title" => some (parse_set_title event_parameters)
  | "set_icon" => none
  | "mode_info_set" => some (parse_mode_info_set event_parameters)
  | "option_set" => some (parse_option_set event_parameters)
  | "mode_change" => some (parse_mode_change event_parameters)
  | "mouse_on" => some (.ok .MouseOn)
  | "mouse_off" => some (.ok .MouseOff)
  | "busy_start" => some (.ok .BusyStart)
  | "busy_stop" => some (.ok .BusyStop)
  | "flush" => some (.ok .Flush)
  | "grid_resize" => some (parse_grid_resize event_parameters)
  | "default_colors_set" => some (parse_default_colors event_parameters)
  | "hl_attr_define" => some (parse_hl_attr_define event_parameters)
  | "grid_line" => some (parse_grid_line event_parameters)
  | "grid_clear" => some (parse_grid_clear event_parameters)
  | "grid_destroy" => some (parse_grid_destroy event_parameters)
  | "grid_cursor_goto" => some (parse_grid_cursor_goto event_parameters)
  | "grid_scroll" => some (parse_grid_scroll event_parameters)
  | "win_pos" => some (parse_win_pos event_parameters)
  | "win_float_pos" => some (parse_win_float_pos event_parameters)
  | "win_external_pos" => some (parse_win_external_pos event_parameters)
  | "win_hide" => some (parse_win_hide event_parameters)
  | "win_close" => some (parse_win_close event_parameters)
  | "msg_set_pos" => some (parse_msg_set_pos event_parameters)
  | "win_viewport" => some (parse_win_viewport event_parameters)
  | "win_viewport_margins" => some (parse_win_viewport_margins event_parameters)
  | "cmdline_show" => some (parse_cmdline_show event_parameters)
  | "cmdline_pos" => some (parse_cmdline_pos event_parameters)
  | "cmdline_special_char" => some (parse_cmdline_special_char event_parameters)
  | "cmdline_hide" => some (.ok .CommandLineHide)
  | "cmdline_block_show" => some (parse_cmdline_block_show event_parameters)
  | "cmdline_block_append" => some (parse_cmdline_block_append event_parameters)
  | "cmdline_block_hide" => some (.ok .CommandLineBlockHide)
  | "msg_show" => some (parse_msg_show event_parameters)
  | "msg_clear" => some (.ok .MessageClear)
  | "msg_showmode" => some (parse_msg_showmode event_parameters)
  | "msg_showcmd" => some (parse_msg_showcmd event_parameters)
  | "msg_ruler" => some (parse_msg_ruler event_parameters)
  | "msg_history_show" => some (parse_msg_history_show event_parameters)
  | "suspend" => some (.ok .Suspend)
  | _ => none

/-- The message built by the dispatcher when a per-event parser fails
(events.rs lines 1056-1058). -/
def wrapEventError (event_name : String) (event_parameters : List Value)
    (parser_error : ParseError) : String :=
  "for event '" ++ event_name ++ "' - " ++ Value.debugVec event_parameters ++
    " - " ++ parser_error.display

/-- The main loop of `parse_redraw_event` (events.rs lines 1004-1062): each
payload element must be an array; a recognized event is parsed, the first
failure is wrapped with the event name and the parameter dump and aborts the
whole call. -/
def processEvents (event_name : String) : List Value → POutcome (List RedrawEvent)
  | [] => .ok []
  | event :: rest =>
    match parse_array event with
    | .err e => .err e
    | .panic => .panic
    | .ok event_parameters =>
      match dispatchOne event_name event_parameters with
      | none => processEvents event_name rest
      | some (.ok parsed_event) =>
        match processEvents event_name rest with
        | .ok tail_events => .ok (parsed_event :: tail_events)
        | other => other
      | some (.err parser_error) =>
        .err (.Format (wrapEventError event_name event_parameters parser_error))
      | some .panic => .panic

/-- `parse_redraw_event` (events.rs lines 994-1065): the payload must be an
array whose first element is the event name; the debug dump of the exhausted
iterator (an empty `vec::IntoIter`) is rendered as in Rust. -/
def parse_redraw_event (event_value : Value) : POutcome (List RedrawEvent) :=
  match parse_array event_value with
  | .err e => .err e
  | .panic => .panic
  | .ok [] => .err (.Format ("IntoIter(" ++ Value.debugVec [] ++ ")"))
  | .ok (head :: events) =>
    match parse_string head with
    | .err e => .err e
    | .panic => .panic
    | .ok event_name => processEvents event_name events

/-- The nine flag events (no payload) accepted by the dispatcher. -/
def flagNames : List String :=
  ["mouse_on", "mouse_off", "busy_start", "busy_stop", "flush",
   "cmdline_hide", "cmdline_block_hide", "msg_clear", "suspend"]

/-- The constant variant produced for each flag event name. -/
def flagEvent : String → RedrawEvent
  | "mouse_on" => .MouseOn
  | "mouse_off" => .MouseOff
  | "busy_start" => .BusyStart
  | "busy_stop" => .BusyStop
  | "flush" => .Flush
  | "cmdline_hide" => .CommandLineHide
  | "cmdline_block_hide" => .CommandLineBlockHide
  | "msg_clear" => .MessageClear
  | "suspend" => .Suspend
  | _ => .Flush

/-- Every event name with an entry in the dispatch table, `set_icon`
included. -/
def handledNames : List String :=
  ["set_title", "set_icon", "mode_info_set", "option_set", "mode_change",
   "mouse_on", "mouse_off", "busy_start", "busy_stop", "flush",
   "grid_resize", "default_colors_set", "hl_attr_define", "grid_line",
   "grid_clear", "grid_destroy", "grid_cursor_goto", "grid_scroll",
   "win_pos", "win_float_pos", "win_external_pos", "win_hide", "win_close",
   "msg_set_pos", "win_viewport", "win_viewport_margins", "cmdline_show",
   "cmdline_pos", "cmdline_special_char", "cmdline_hide",
   "cmdline_block_show", "cmdline_block_append", "cmdline_block_hide",
   "msg_show", "msg_clear", "msg_showmode", "msg_showcmd", "msg_ruler",
   "msg_history_show", "suspend"]

/-- A `win_float_pos` parameter tuple whose anchor string is not a compass
point. -/
def wfpBadArgs : List Value :=
  [.Integer 2, .Ext 1 [], .Str (.valid ("XX")), .Integer 1, .F64 0, .F64 0,
   .Boolean true, .Integer 50]

/-- An event is anchor-safe when, if it is a `WindowFloatPosition`, its anchor
is not `Absolute`. -/
def anchorSafe (e : RedrawEvent) : Prop :=
  ∀ g a ag ar ac me z ci sr sc,
    e = RedrawEvent.WindowFloatPosition g a ag ar ac me z ci sr sc → a ≠ .Absolute

@[simp] theorem POutcome.bind_ok_l {α β : Type} (a : α) (f : α → POutcome β) :
    (POutcome.ok a >>= f) = f a := rfl

@[simp] theorem POutcome.bind_err_l {α β : Type} (e : ParseError) (f : α → POutcome β) :
    (POutcome.err e >>= f) = .err e := rfl

@[simp] theorem POutcome.bind_panic_l {α β : Type} (f : α → POutcome β) :
    ((POutcome.panic : POutcome α) >>= f) = .panic := rfl

/-- Step lemma: a recognized, successfully parsed tuple contributes its event
at the head of the output. -/
theorem processEvents_cons_ok {name : String} {ps rest : List Value}
    {ev : RedrawEvent} {evs : List RedrawEvent}
    (h1 : dispatchOne name ps = some (.ok ev))
    (h2 : processEvents name rest = .ok evs) :
    processEvents name (.Array ps :: rest) = .ok (ev :: evs) := by
  simp only [processEvents, parse_array]
  rw [h1, h2]

/-- Step lemma: the first failing tuple aborts the whole call with a wrapped
`Format` error, whatever follows it. -/
theorem processEvents_cons_err {name : String} {ps rest : List Value}
    {e : ParseError} (h1 : dispatchOne name ps = some (.err e)) :
    processEvents name (.Array ps :: rest) =
      .err (.Format (wrapEventError name ps e)) := by
  simp only [processEvents, parse_array]
  rw [h1]

/-- Step lemma: a skipped tuple (unrecognized name or `set_icon`) contributes
nothing. -/
theorem processEvents_cons_skip {name : String} {ps rest : List Value}
    (h1 : dispatchOne name ps = none) :
    processEvents name (.Array ps :: rest) = processEvents name rest := by
  simp only [processEvents, parse_array]
  rw [h1]

theorem and_shiftRight_eq (x y n : Nat) : (x &&& y) >>> n = (x >>> n) &&& (y >>> n) := by
  apply Nat.eq_of_testBit_eq
  intro i
  simp [Nat.testBit_shiftRight, Nat.testBit_and]

/-- The three channels of `unpack_color` in div/mod form. -/
theorem unpack_color_channels (p : Nat) :
    unpack_color p =
      { r := ((p / 2 ^ 16 % 2 ^ 8 : Nat) : Rat) / 255,
        g := ((p / 2 ^ 8 % 2 ^ 8 : Nat) : Rat) / 255,
        b := ((p % 2 ^ 8 : Nat) : Rat) / 255,
        a := 1 } := by
  unfold unpack_color
  have hr : (p % 2 ^ 32 &&& 0x00ff0000) >>> 16 = p / 2 ^ 16 % 2 ^ 8 := by
    rw [and_shiftRight_eq]
    rw [show (0x00ff0000 : Nat) >>> 16 = 2 ^ 8 - 1 from rfl]
    rw [Nat.and_pow_two_sub_one_eq_mod, Nat.shiftRight_eq_div_pow]
    omega
  have hg : (p % 2 ^ 32 &&& 0xff00) >>> 8 = p / 2 ^ 8 % 2 ^ 8 := by
    rw [and_shiftRight_eq]
    rw [show (0xff00 : Nat) >>> 8 = 2 ^ 8 - 1 from rfl]
    rw [Nat.and_pow_two_sub_one_eq_mod, Nat.shiftRight_eq_div_pow]
    omega
  have hb : p % 2 ^ 32 &&& 0xff = p % 2 ^ 8 := by
    rw [show (0xff : Nat) = 2 ^ 8 - 1 from rfl]
    rw [Nat.and_pow_two_sub_one_eq_mod]
    omega
  dsimp only
  rw [hr, hg, hb]

/-- Claim C6: `unpack_color` depends only on the low 24 bits of its 64-bit
input and is injective on them, and unpacking `0xRRGGBB` yields the color
(R/255, G/255, B/255) with alpha 1, R being bits 16-23, G bits 8-15 and B
bits 0-7. -/
theorem C6_unpack_color :
    (∀ p : Nat, unpack_color p = unpack_color (p % 2 ^ 24)) ∧
    (∀ p q : Nat, p < 2 ^ 24 → q < 2 ^ 24 → unpack_color p = unpack_color q → p = q) ∧
    (∀ R G B : Nat, R < 256 → G < 256 → B < 256 →
      unpack_color (R * 2 ^ 16 + G * 2 ^ 8 + B) =
        { r := (R : Rat) / 255, g := (G : Rat) / 255, b := (B : Rat) / 255, a := 1 }) := by
  refine ⟨?_, ?_, ?_⟩
  · intro p
    rw [unpack_color_channels, unpack_color_channels]
    have h1 : p / 2 ^ 16 % 2 ^ 8 = p % 2 ^ 24 / 2 ^ 16 % 2 ^ 8 := by omega
    have h2 : p / 2 ^ 8 % 2 ^ 8 = p % 2 ^ 24 / 2 ^ 8 % 2 ^ 8 := by omega
    have h3 : p % 2 ^ 8 = p % 2 ^ 24 % 2 ^ 8 := by omega
    rw [h1, h2, h3]
  · intro p q hp hq h
    rw [unpack_color_channels, unpack_color_channels] at h
    simp only [Color4f.mk.injEq] at h
    obtain ⟨hr, hg, hb, -⟩ := h
    have hr' : p / 2 ^ 16 % 2 ^ 8 = q / 2 ^ 16 % 2 ^ 8 := by
      field_simp at hr
      exact_mod_cast hr
    have hg' : p / 2 ^ 8 % 2 ^ 8 = q / 2 ^ 8 % 2 ^ 8 := by
      field_simp at hg
      exact_mod_cast hg
    have hb' : p % 2 ^ 8 = q % 2 ^ 8 := by
      field_simp at hb
      exact_mod_cast hb
    omega
  · intro R G B hR hG hB
    rw [unpack_color_channels]
    have h1 : (R * 2 ^ 16 + G * 2 ^ 8 + B) / 2 ^ 16 % 2 ^ 8 = R := by omega
    have h2 : (R * 2 ^ 16 + G * 2 ^ 8 + B) / 2 ^ 8 % 2 ^ 8 = G := by omega
    have h3 : (R * 2 ^ 16 + G * 2 ^ 8 + B) % 2 ^ 8 = B := by omega
    rw [h1, h2, h3]

/-- Witness for C6 at the packed color `0xFF8007`. -/
theorem C6_unpack_color_witness :
    unpack_color (255 * 2 ^ 16 + 128 * 2 ^ 8 + 7) =
      { r := (255 : Rat) / 255, g := (128 : Rat) / 255, b := (7 : Rat) / 255, a := 1 } :=
  C6_unpack_color.2.2 255 128 7 (by decide) (by decide) (by decide)

/-- Claim C1: the spec says `parse_redraw_event` is total — every input yields
`Ok` or a structured `Err`, in particular inputs with extra trailing
positional parameters, negative wire integers in an `hl_attr_define` style
map, or non-UTF-8 style attribute keys.  The code refutes this: all three of
those inputs panic (an out-of-bounds index in `extract_values_with_optional`,
and `as_u64().unwrap()` / `as_str().unwrap()` in `parse_style`). -/
theorem C1_totality_fails :
    parse_redraw_event
        (.Array [.Str (.valid ("win_viewport")), .Array (List.replicate 9 .Nil)]) = .panic ∧
    parse_redraw_event
        (.Array [.Str (.valid ("hl_attr_define")),
          .Array [.Integer 1, .Map [(.Str (.valid ("foreground")), .Integer (-1))],
            .Nil, .Nil]]) = .panic ∧
    parse_redraw_event
        (.Array [.Str (.valid ("hl_attr_define")),
          .Array [.Integer 1, .Map [(.Str (.invalid [255]), .Boolean true)],
            .Nil, .Nil]]) = .panic :=
  ⟨rfl, rfl, rfl⟩

/-- Claim C2: trimming a `win_viewport` tuple to its required arity of 6 does
succeed with both optionals absent, and the full 8-element tuple parses, but
appending one extra value beyond the declared required-plus-optional count
does not leave the result unchanged as the claim states: the fill loop of
`extract_values_with_optional` indexes `optional_values[index - REQ]` out of
bounds and panics. -/
theorem C2_extra_values_panic :
    parse_redraw_event
        (.Array [.Str (.valid ("win_viewport")),
          .Array [.Integer 1, .Ext 1 [], .F64 1, .F64 10, .F64 5, .F64 2]]) =
      .ok [.WindowViewport 1 1 10 5 2 none none] ∧
    parse_redraw_event
        (.Array [.Str (.valid ("win_viewport")),
          .Array [.Integer 1, .Ext 1 [], .F64 1, .F64 10, .F64 5, .F64 2,
            .F64 11, .F64 0]]) =
      .ok [.WindowViewport 1 1 10 5 2 (some 11) (some 0)] ∧
    parse_redraw_event
        (.Array [.Str (.valid ("win_viewport")),
          .Array [.Integer 1, .Ext 1 [], .F64 1, .F64 10, .F64 5, .F64 2,
            .F64 11, .F64 0, .Nil]]) = .panic :=
  ⟨rfl, rfl, rfl⟩

/-- Claim C3, counterexample: for an unrecognized event name the decoder does
not ignore a non-array parameter element — `parse_array` runs before the name
is looked up, so the payload `["not_an_event", 42]` yields an `Array` error,
not an empty sequence. -/
theorem C3_counterexample :
    parse_redraw_event (.Array [.Str (.valid ("not_an_event")), .Integer 42]) =
      .err (.Array (.Integer 42)) ∧
    parse_redraw_event (.Array [.Str (.valid ("not_an_event")), .Integer 42]) ≠
      .ok [] := by
  refine ⟨rfl, ?_⟩
  intro h
  rw [show parse_redraw_event (.Array [.Str (.valid ("not_an_event")), .Integer 42]) =
      .err (.Array (.Integer 42)) from rfl] at h
  exact POutcome.noConfusion h

/-- A name outside the dispatch table maps to `none` (silently skipped). -/
theorem dispatchOne_unrecognized {name : String} (h : name ∉ handledNames)
    (ps : List Value) : dispatchOne name ps = none := by
  unfold dispatchOne
  split
  all_goals try rfl
  all_goals exact absurd (by decide) h

/-- Claim C3, amended: for a payload whose first element is an unrecognized
event name (not `set_icon` either), the decoder returns an empty sequence
without error provided every remaining payload element is an array; a
non-array element still fails with an `Array` error (see the
counterexample). -/
theorem C3_unrecognized_skipped (name : String) (params : List Value)
    (hname : name ∉ handledNames)
    (hparams : ∀ p ∈ params, ∃ vs, p = Value.Array vs) :
    parse_redraw_event (.Array (.Str (.valid name) :: params)) = .ok [] := by
  have hloop : ∀ ps : List Value, (∀ p ∈ ps, ∃ vs, p = Value.Array vs) →
      processEvents name ps = .ok [] := by
    intro ps
    induction ps with
    | nil => intro _; rfl
    | cons p rest ih =>
      intro hp
      obtain ⟨vs, rfl⟩ := hp p (by simp)
      rw [processEvents_cons_skip (dispatchOne_unrecognized hname vs)]
      exact ih (fun q hq => hp q (by simp [hq]))
  show processEvents name params = .ok []
  exact hloop params hparams

/-- Witness for C3 at the name `neovide_custom_event` with two array
parameter tuples. -/
theorem C3_unrecognized_skipped_witness :
    ("neovide_custom_event" ∉ handledNames) ∧
    parse_redraw_event
        (.Array [.Str (.valid ("neovide_custom_event")), .Array [], .Array [.Integer 1]]) =
      .ok [] := by
  refine ⟨by decide, C3_unrecognized_skipped _ _ (by decide) ?_⟩
  intro p hp
  rcases List.mem_cons.mp hp with rfl | hp2
  · exact ⟨[], rfl⟩
  rcases List.mem_cons.mp hp2 with rfl | hp3
  · exact ⟨[.Integer 1], rfl⟩
  exact absurd hp3 (List.not_mem_nil p)

/-- Claim C8: `grid_cursor_goto` coordinates are read as signed integers and
negative values are clamped to 0 instead of erroring (the warning log is a
side effect outside the model). -/
theorem C8_cursor_goto_clamps (g r c : Int) (hg : 0 ≤ g)
    (hr : r ≤ 9223372036854775807) (hc : c ≤ 9223372036854775807) :
    parse_redraw_event
        (.Array [.Str (.valid ("grid_cursor_goto")),
          .Array [.Integer g, .Integer r, .Integer c]]) =
      .ok [.CursorGoto g.toNat (if r < 0 then 0 else r.toNat)
            (if c < 0 then 0 else c.toNat)] := by
  have hparse : parse_grid_cursor_goto [.Integer g, .Integer r, .Integer c] =
      .ok (.CursorGoto g.toNat (validate_coord r) (validate_coord c)) := by
    have hex : extract_values 3 [Value.Integer g, .Integer r, .Integer c] =
        .ok [.Integer g, .Integer r, .Integer c] := rfl
    simp only [parse_grid_cursor_goto, hex, POutcome.bind_ok_l]
    simp [parse_u64, parse_i64, hg, hr, hc, POutcome.pure_eq_ok]
  have hd : dispatchOne ("grid_cursor_goto") [.Integer g, .Integer r, .Integer c] =
      some (.ok (.CursorGoto g.toNat (validate_coord r) (validate_coord c))) := by
    rw [show dispatchOne ("grid_cursor_goto") [Value.Integer g, .Integer r, .Integer c] =
        some (parse_grid_cursor_goto [.Integer g, .Integer r, .Integer c]) from rfl, hparse]
  exact processEvents_cons_ok hd rfl

/-- Witness for C8 at the payload `["grid_cursor_goto", [1, -3, 5]]`. -/
theorem C8_cursor_goto_clamps_witness :
    parse_redraw_event
        (.Array [.Str (.valid ("grid_cursor_goto")),
          .Array [.Integer 1, .Integer (-3), .Integer 5]]) =
      .ok [.CursorGoto 1 0 5] :=
  C8_cursor_goto_clamps 1 (-3) 5 (by decide) (by decide) (by decide)

/-- Claim C9: string extraction succeeds on every wire string — invalid UTF-8
content becomes the single replacement character U+FFFD — and fails with a
`String`-kind error on every non-string value. -/
theorem C9_parse_string_total :
    (∀ s, parse_string (.Str (.valid s)) = .ok s) ∧
    (∀ bs, parse_string (.Str (.invalid bs)) = .ok ("�")) ∧
    (∀ v : Value, (∀ s, v ≠ .Str s) → parse_string v = .err (.String v)) := by
  refine ⟨fun s => rfl, fun bs => rfl, ?_⟩
  intro v hv
  cases v <;> first | rfl | exact absurd rfl (hv _)

/-- Witness for C9 at the non-string value `Integer 3`. -/
theorem C9_parse_string_total_witness :
    parse_string (.Integer 3) = .err (.String (.Integer 3)) :=
  C9_parse_string_total.2.2 (.Integer 3) (fun s h => Value.noConfusion h)

/-- A flag event name maps every parameter tuple to its constant variant. -/
theorem dispatchOne_flag {fname : String} (h : fname ∈ flagNames) (ps : List Value) :
    dispatchOne fname ps = some (.ok (flagEvent fname)) := by
  fin_cases h <;> rfl

/-- Claim C5: a recognized flag event name followed by N empty parameter
tuples yields exactly N copies of the corresponding variant, and in general
the dispatcher emits parsed events in the same order as the input parameter
tuples. -/
theorem C5_flag_events :
    (∀ fname, fname ∈ flagNames → ∀ N : Nat,
      parse_redraw_event (.Array (.Str (.valid fname) :: List.replicate N (.Array []))) =
        .ok (List.replicate N (flagEvent fname))) ∧
    (∀ (name : String) (params : List Value) (evs : List RedrawEvent),
      List.Forall₂
        (fun p e => ∃ ps, p = Value.Array ps ∧ dispatchOne name ps = some (.ok e))
        params evs →
      processEvents name params = .ok evs) := by
  constructor
  · intro fname hmem N
    show processEvents fname (List.replicate N (.Array [])) = _
    induction N with
    | zero => rfl
    | succ n ih =>
      rw [List.replicate_succ, List.replicate_succ]
      exact processEvents_cons_ok (dispatchOne_flag hmem []) ih
  · intro name params evs hall
    induction hall with
    | nil => rfl
    | cons hpe htail ih =>
      obtain ⟨ps, rfl, hd⟩ := hpe
      exact processEvents_cons_ok hd ih

/-- Witness for C5: `["flush", [], []]` yields two `Flush` events. -/
theorem C5_flag_events_witness :
    parse_redraw_event
        (.Array (.Str (.valid ("flush")) :: List.replicate 2 (.Array []))) =
      .ok [.Flush, .Flush] :=
  C5_flag_events.1 ("flush") (by decide) 2

/-- Splitting the dispatch loop: once a prefix of the tuples has succeeded,
the rest of the payload decides the outcome, with the prefix's events
prepended. -/
theorem processEvents_append_ok {name : String} :
    ∀ {pre : List Value} {evs0 : List RedrawEvent},
      processEvents name pre = .ok evs0 →
    ∀ rest, processEvents name (pre ++ rest) =
      match processEvents name rest with
      | .ok t => .ok (evs0 ++ t)
      | x => x := by
  intro pre
  induction pre with
  | nil =>
    intro evs0 h rest
    simp only [processEvents] at h
    obtain rfl : [] = evs0 := POutcome.ok.inj h
    simp only [List.nil_append]
    cases hr : processEvents name rest <;> simp [hr]
  | cons p pre' ih =>
    intro evs0 h rest
    simp only [processEvents, List.cons_append, List.append_eq] at h ⊢
    cases hpa : parse_array p with
    | err e => simp [hpa] at h
    | panic => simp [hpa] at h
    | ok ps =>
      simp only [hpa] at h ⊢
      cases hd : dispatchOne name ps with
      | none =>
        simp only [hd] at h ⊢
        exact ih h rest
      | some out =>
        cases out with
        | ok ev =>
          simp only [hd] at h ⊢
          cases ht : processEvents name pre' with
          | ok tl =>
            simp only [ht] at h
            obtain rfl : ev :: tl = evs0 := POutcome.ok.inj h
            rw [ih ht rest]
            cases hr : processEvents name rest <;> simp [hr]
          | err e2 => simp [ht] at h
          | panic => simp [ht] at h
        | err e2 => simp [hd] at h
        | panic => simp [hd] at h

/-- Two strings that differ at index 8 cannot be prefixes of each other's
extensions. -/
theorem not_isPrefixOf_of_get8 {p q x : List Char} {c d : Char}
    (hp : p[8]? = some c) (hq : q[8]? = some d) (hne : c ≠ d) :
    q.isPrefixOf (p ++ x) = false := by
  by_contra hcon
  rw [Bool.not_eq_false, List.isPrefixOf_iff_prefix] at hcon
  obtain ⟨t, ht⟩ := hcon
  have hlq : 8 < q.length := by
    by_contra hlen
    push_neg at hlen
    rw [List.getElem?_eq_none (by omega)] at hq
    exact Option.noConfusion hq
  have hlp : 8 < p.length := by
    by_contra hlen
    push_neg at hlen
    rw [List.getElem?_eq_none (by omega)] at hp
    exact Option.noConfusion hp
  have e1 : (q ++ t)[8]? = some d := by
    rw [List.getElem?_append]
    rw [if_pos hlq]
    exact hq
  have e2 : (p ++ x)[8]? = some c := by
    rw [List.getElem?_append]
    rw [if_pos hlp]
    exact hp
  rw [ht, e2] at e1
  exact hne (Option.some.inj e1)

theorem strStarts_append_self (p x : String) : strStarts (p ++ x) p = true := by
  unfold strStarts
  rw [String.data_append, List.isPrefixOf_iff_prefix]
  exact List.prefix_append _ _

theorem strStarts_append_ne (p q x : String) (c d : Char)
    (hp : p.data[8]? = some c) (hq : q.data[8]? = some d) (hne : c ≠ d) :
    strStarts (p ++ x) q = false := by
  unfold strStarts
  rw [String.data_append]
  exact not_isPrefixOf_of_get8 hp hq hne

/-- Every displayed error determines its kind: the fixed message prefixes are
pairwise distinguishable (they differ at character 8), so the kind survives
being embedded in a larger message. -/
theorem kind_recoverable (e : ParseError) : kindOfMessage e.display = some e.kind := by
  cases e with
  | Array v =>
    show kindOfMessage (("invalid array format ") ++ v.displayStr) = some .Array
    unfold kindOfMessage
    rw [strStarts_append_self]
    rfl
  | Map v =>
    show kindOfMessage (("invalid map format ") ++ v.displayStr) = some .Map
    unfold kindOfMessage
    rw [strStarts_append_ne ("invalid map format ") ("invalid array format ") _ ('m') ('a') rfl rfl (by decide),
      strStarts_append_self]
    rfl
  | String v =>
    show kindOfMessage (("invalid string format ") ++ v.displayStr) = some .String
    unfold kindOfMessage
    rw [strStarts_append_ne ("invalid string format ") ("invalid array format ") _ ('s') ('a') rfl rfl (by decide),
      strStarts_append_ne ("invalid string format ") ("invalid map format ") _ ('s') ('m') rfl rfl (by decide),
      strStarts_append_self]
    rfl
  | U64 v =>
    show kindOfMessage (("invalid u64 format ") ++ v.displayStr) = some .U64
    unfold kindOfMessage
    rw [strStarts_append_ne ("invalid u64 format ") ("invalid array format ") _ ('u') ('a') rfl rfl (by decide),
      strStarts_append_ne ("invalid u64 format ") ("invalid map format ") _ ('u') ('m') rfl rfl (by decide),
      strStarts_append_ne ("invalid u64 format ") ("invalid string format ") _ ('u') ('s') rfl rfl (by decide),
      strStarts_append_self]
    rfl
  | I64 v =>
    show kindOfMessage (("invalid i64 format ") ++ v.displayStr) = some .I64
    unfold kindOfMessage
    rw [strStarts_append_ne ("invalid i64 format ") ("invalid array format ") _ ('i') ('a') rfl rfl (by decide),
      strStarts_append_ne ("invalid i64 format ") ("invalid map format ") _ ('i') ('m') rfl rfl (by decide),
      strStarts_append_ne ("invalid i64 format ") ("invalid string format ") _ ('i') ('s') rfl rfl (by decide),
      strStarts_append_ne ("invalid i64 format ") ("invalid u64 format ") _ ('i') ('u') rfl rfl (by decide),
      strStarts_append_self]
    rfl
  | F64 v =>
    show kindOfMessage (("invalid f64 format ") ++ v.displayStr) = some .F64
    unfold kindOfMessage
    rw [strStarts_append_ne ("invalid f64 format ") ("invalid array format ") _ ('f') ('a') rfl rfl (by decide),
      strStarts_append_ne ("invalid f64 format ") ("invalid map format ") _ ('f') ('m') rfl rfl (by decide),
      strStarts_append_ne ("invalid f64 format ") ("invalid string format ") _ ('f') ('s') rfl rfl (by decide),
      strStarts_append_ne ("invalid f64 format ") ("invalid u64 format ") _ ('f') ('u') rfl rfl (by decide),
      strStarts_append_ne ("invalid f64 format ") ("invalid i64 format ") _ ('f') ('i') rfl rfl (by decide),
      strStarts_append_self]
    rfl
  | Bool v =>
    show kindOfMessage (("invalid bool format ") ++ v.displayStr) = some .Bool
    unfold kindOfMessage
    rw [strStarts_append_ne ("invalid bool format ") ("invalid array format ") _ ('b') ('a') rfl rfl (by decide),
      strStarts_append_ne ("invalid bool format ") ("invalid map format ") _ ('b') ('m') rfl rfl (by decide),
      strStarts_append_ne ("invalid bool format ") ("invalid string format ") _ ('b') ('s') rfl rfl (by decide),
      strStarts_append_ne ("invalid bool format ") ("invalid u64 format ") _ ('b') ('u') rfl rfl (by decide),
      strStarts_append_ne ("invalid bool format ") ("invalid i64 format ") _ ('b') ('i') rfl rfl (by decide),
      strStarts_append_ne ("invalid bool format ") ("invalid f64 format ") _ ('b') ('f') rfl rfl (by decide),
      strStarts_append_self]
    rfl
  | WindowAnchor v =>
    show kindOfMessage (("invalid window anchor format ") ++ v.displayStr) = some .BadAnchor
    unfold kindOfMessage
    rw [strStarts_append_ne ("invalid window anchor format ") ("invalid array format ") _ ('w') ('a') rfl rfl (by decide),
      strStarts_append_ne ("invalid window anchor format ") ("invalid map format ") _ ('w') ('m') rfl rfl (by decide),
      strStarts_append_ne ("invalid window anchor format ") ("invalid string format ") _ ('w') ('s') rfl rfl (by decide),
      strStarts_append_ne ("invalid window anchor format ") ("invalid u64 format ") _ ('w') ('u') rfl rfl (by decide),
      strStarts_append_ne ("invalid window anchor format ") ("invalid i64 format ") _ ('w') ('i') rfl rfl (by decide),
      strStarts_append_ne ("invalid window anchor format ") ("invalid f64 format ") _ ('w') ('f') rfl rfl (by decide),
      strStarts_append_ne ("invalid window anchor format ") ("invalid bool format ") _ ('w') ('b') rfl rfl (by decide),
      strStarts_append_self]
    rfl
  | Format debug_text =>
    show kindOfMessage (("invalid event format ") ++ debug_text) = some .Shape
    unfold kindOfMessage
    rw [strStarts_append_ne ("invalid event format ") ("invalid array format ") _ ('e') ('a') rfl rfl (by decide),
      strStarts_append_ne ("invalid event format ") ("invalid map format ") _ ('e') ('m') rfl rfl (by decide),
      strStarts_append_ne ("invalid event format ") ("invalid string format ") _ ('e') ('s') rfl rfl (by decide),
      strStarts_append_ne ("invalid event format ") ("invalid u64 format ") _ ('e') ('u') rfl rfl (by decide),
      strStarts_append_ne ("invalid event format ") ("invalid i64 format ") _ ('e') ('i') rfl rfl (by decide),
      strStarts_append_ne ("invalid event format ") ("invalid f64 format ") _ ('e') ('f') rfl rfl (by decide),
      strStarts_append_ne ("invalid event format ") ("invalid bool format ") _ ('e') ('b') rfl rfl (by decide),
      strStarts_append_ne ("invalid event format ") ("invalid window anchor format ") _ ('e') ('w') rfl rfl (by decide),
      strStarts_append_self]
    rfl


/-- Claim C4: when a per-event parser fails on some parameter tuple (after
earlier tuples succeeded), `parse_redraw_event` returns a one-line `Format`
error that prefixes the event name and the offending parameter array to the
underlying error's display, from which the underlying kind (Array, Map,
String, U64, I64, F64, Bool, BadAnchor, Shape) is recoverable intact; and the
returned error's `Error::source` is empty. -/
theorem C4_error_wrapping (name : String) (pre params post : List Value)
    (e : ParseError) (evs0 : List RedrawEvent)
    (hpre : processEvents name pre = .ok evs0)
    (hfail : dispatchOne name params = some (.err e)) :
    parse_redraw_event (.Array (.Str (.valid name) :: (pre ++ .Array params :: post))) =
      .err (.Format ("for event '" ++ name ++ "' - " ++ Value.debugVec params ++
        " - " ++ e.display)) ∧
    (ParseError.Format ("for event '" ++ name ++ "' - " ++ Value.debugVec params ++
        " - " ++ e.display)).source = none ∧
    kindOfMessage e.display = some e.kind := by
  refine ⟨?_, rfl, kind_recoverable e⟩
  show processEvents name (pre ++ .Array params :: post) = _
  rw [processEvents_append_ok hpre, processEvents_cons_err hfail]
  rfl

/-- Witness for C4: `["set_title", [5]]` fails inside `parse_string` and the
error is wrapped with the event name. -/
theorem C4_error_wrapping_witness :
    parse_redraw_event (.Array [.Str (.valid ("set_title")), .Array [.Integer 5]]) =
      .err (.Format ("for event '" ++ "set_title" ++ "' - " ++
        Value.debugVec [.Integer 5] ++ " - " ++
        (ParseError.String (.Integer 5)).display)) ∧
    (ParseError.Format ("for event '" ++ "set_title" ++ "' - " ++
        Value.debugVec [.Integer 5] ++ " - " ++
        (ParseError.String (.Integer 5)).display)).source = none ∧
    kindOfMessage (ParseError.String (.Integer 5)).display =
      some (ParseError.String (.Integer 5)).kind :=
  C4_error_wrapping ("set_title") [] [.Integer 5] [] (.String (.Integer 5)) [] rfl rfl

/-- Claim C7: the anchor strings NW, NE, SW, SE map to the four compass
variants, every other string fails with a `WindowAnchor` (BadAnchor) error,
and inside a `win_float_pos` tuple that error surfaces in a dispatcher
message naming the event. -/
theorem parse_window_anchor_other (s : String) (h1 : s ≠ "NW") (h2 : s ≠ "NE")
    (h3 : s ≠ "SW") (h4 : s ≠ "SE") :
    parse_window_anchor (.Str (.valid s)) = .err (.WindowAnchor (.Str (.valid s))) := by
  simp only [parse_window_anchor, parse_string, POutcome.bind_ok_l]

theorem win_float_pos_bad_anchor_error :
    ∃ rest : String,
      parse_redraw_event (.Array [.Str (.valid ("win_float_pos")), .Array wfpBadArgs]) =
        .err (.Format ("for event 'win_float_pos' - " ++ rest)) := by
  refine ⟨Value.debugVec wfpBadArgs ++ (" - " ++
    (ParseError.WindowAnchor (.Str (.valid ("XX")))).display), ?_⟩
  have hfail : dispatchOne ("win_float_pos") wfpBadArgs =
      some (.err (.WindowAnchor (.Str (.valid ("XX"))))) := rfl
  show processEvents ("win_float_pos") [.Array wfpBadArgs] = _
  rw [processEvents_cons_err hfail]
  simp only [wrapEventError, String.append_assoc]
  rw [show ∀ X : String,
      "for event '" ++ ("win_float_pos" ++ ("' - " ++ X)) =
        "for event 'win_float_pos' - " ++ X from
    fun X => by rw [← String.append_assoc, ← String.append_assoc]; rfl]

theorem C7_window_anchor :
    (parse_window_anchor (.Str (.valid ("NW"))) = .ok .NorthWest) ∧
    (parse_window_anchor (.Str (.valid ("NE"))) = .ok .NorthEast) ∧
    (parse_window_anchor (.Str (.valid ("SW"))) = .ok .SouthWest) ∧
    (parse_window_anchor (.Str (.valid ("SE"))) = .ok .SouthEast) ∧
    (∀ s : String, s ≠ "NW" → s ≠ "NE" → s ≠ "SW" → s ≠ "SE" →
      parse_window_anchor (.Str (.valid s)) = .err (.WindowAnchor (.Str (.valid s)))) ∧
    (∃ rest : String,
      parse_redraw_event (.Array [.Str (.valid ("win_float_pos")), .Array wfpBadArgs]) =
        .err (.Format ("for event 'win_float_pos' - " ++ rest))) :=
  ⟨rfl, rfl, rfl, rfl, parse_window_anchor_other, win_float_pos_bad_anchor_error⟩

/-- Witness for C7 at the anchor string `XX`. -/
theorem C7_window_anchor_witness :
    parse_window_anchor (.Str (.valid ("XX"))) =
      .err (.WindowAnchor (.Str (.valid ("XX")))) :=
  C7_window_anchor.2.2.2.2.1 ("XX") (by decide) (by decide) (by decide) (by decide)

/-- Inversion lemmas: a successful per-event parse yields the parser's own
constructor, so every parser except `parse_win_float_pos` trivially produces
an anchor-safe event, and `parse_win_float_pos` gets its anchor from
`parse_window_anchor`, which never returns `Absolute`. -/
theorem parse_window_anchor_not_absolute {v : Value} {a : WindowAnchor}
    (h : parse_window_anchor v = .ok a) : a ≠ .Absolute := by
  simp only [parse_window_anchor, POutcome.bind_eq_ok] at h
  obtain ⟨s, -, h⟩ := h
  split at h
  all_goals try simp only [POutcome.pure_eq_ok, POutcome.ok.injEq] at h
  all_goals first
    | exact POutcome.noConfusion h
    | (obtain rfl := h; simp)

theorem parse_set_title_safe {args : List Value} {e : RedrawEvent}
    (h : parse_set_title args = .ok e) : anchorSafe e := by
  simp only [parse_set_title, POutcome.bind_eq_ok] at h
  obtain ⟨r, -, h⟩ := h
  split at h
  all_goals try simp only [POutcome.bind_eq_ok, POutcome.pure_eq_ok, POutcome.ok.injEq] at h
  all_goals first
    | exact POutcome.noConfusion h
    | (obtain rfl := h; simp [anchorSafe])
    | (obtain ⟨a1, -, rfl⟩ := h; simp [anchorSafe])
    | (obtain ⟨a1, -, a2, -, rfl⟩ := h; simp [anchorSafe])
    | (obtain ⟨a1, -, a2, -, a3, -, rfl⟩ := h; simp [anchorSafe])
    | (obtain ⟨a1, -, a2, -, a3, -, a4, -, rfl⟩ := h; simp [anchorSafe])
    | (obtain ⟨a1, -, a2, -, a3, -, a4, -, a5, -, rfl⟩ := h; simp [anchorSafe])
    | (obtain ⟨a1, -, a2, -, a3, -, a4, -, a5, -, a6, -, rfl⟩ := h; simp [anchorSafe])
    | (obtain ⟨a1, -, a2, -, a3, -, a4, -, a5, -, a6, -, a7, -, rfl⟩ := h; simp [anchorSafe])

theorem parse_mode_info_set_safe {args : List Value} {e : RedrawEvent}
    (h : parse_mode_info_set args = .ok e) : anchorSafe e := by
  simp only [parse_mode_info_set, POutcome.bind_eq_ok] at h
  obtain ⟨r, -, h⟩ := h
  split at h
  all_goals try simp only [POutcome.bind_eq_ok, POutcome.pure_eq_ok, POutcome.ok.injEq] at h
  all_goals first
    | exact POutcome.noConfusion h
    | (obtain rfl := h; simp [anchorSafe])
    | (obtain ⟨a1, -, rfl⟩ := h; simp [anchorSafe])
    | (obtain ⟨a1, -, a2, -, rfl⟩ := h; simp [anchorSafe])
    | (obtain ⟨a1, -, a2, -, a3, -, rfl⟩ := h; simp [anchorSafe])
    | (obtain ⟨a1, -, a2, -, a3, -, a4, -, rfl⟩ := h; simp [anchorSafe])
    | (obtain ⟨a1, -, a2, -, a3, -, a4, -, a5, -, rfl⟩ := h; simp [anchorSafe])
    | (obtain ⟨a1, -, a2, -, a3, -, a4, -, a5, -, a6, -, rfl⟩ := h; simp [anchorSafe])
    | (obtain ⟨a1, -, a2, -, a3, -, a4, -, a5, -, a6, -, a7, -, rfl⟩ := h; simp [anchorSafe])

theorem parse_mode_change_safe {args : List Value} {e : RedrawEvent}
    (h : parse_mode_change args = .ok e) : anchorSafe e := by
  simp only [parse_mode_change, POutcome.bind_eq_ok] at h
  obtain ⟨r, -, h⟩ := h
  split at h
  all_goals try simp only [POutcome.bind_eq_ok, POutcome.pure_eq_ok, POutcome.ok.injEq] at h
  all_goals first
    | exact POutcome.noConfusion h
    | (obtain rfl := h; simp [anchorSafe])
    | (obtain ⟨a1, -, rfl⟩ := h; simp [anchorSafe])
    | (obtain ⟨a1, -, a2, -, rfl⟩ := h; simp [anchorSafe])
    | (obtain ⟨a1, -, a2, -, a3, -, rfl⟩ := h; simp [anchorSafe])
    | (obtain ⟨a1, -, a2, -, a3, -, a4, -, rfl⟩ := h; simp [anchorSafe])
    | (obtain ⟨a1, -, a2, -, a3, -, a4, -, a5, -, rfl⟩ := h; simp [anchorSafe])
    | (obtain ⟨a1, -, a2, -, a3, -, a4, -, a5, -, a6, -, rfl⟩ := h; simp [anchorSafe])
    | (obtain ⟨a1, -, a2, -, a3, -, a4, -, a5, -, a6, -, a7, -, rfl⟩ := h; simp [anchorSafe])

theorem parse_grid_resize_safe {args : List Value} {e : RedrawEvent}
    (h : parse_grid_resize args = .ok e) : anchorSafe e := by
  simp only [parse_grid_resize, POutcome.bind_eq_ok] at h
  obtain ⟨r, -, h⟩ := h
  split at h
  all_goals try simp only [POutcome.bind_eq_ok, POutcome.pure_eq_ok, POutcome.ok.injEq] at h
  all_goals first
    | exact POutcome.noConfusion h
    | (obtain rfl := h; simp [anchorSafe])
    | (obtain ⟨a1, -, rfl⟩ := h; simp [anchorSafe])
    | (obtain ⟨a1, -, a2, -, rfl⟩ := h; simp [anchorSafe])
    | (obtain ⟨a1, -, a2, -, a3, -, rfl⟩ := h; simp [anchorSafe])
    | (obtain ⟨a1, -, a2, -, a3, -, a4, -, rfl⟩ := h; simp [anchorSafe])
    | (obtain ⟨a1, -, a2, -, a3, -, a4, -, a5, -, rfl⟩ := h; simp [anchorSafe])
    | (obtain ⟨a1, -, a2, -, a3, -, a4, -, a5, -, a6, -, rfl⟩ := h; simp [anchorSafe])
    | (obtain ⟨a1, -, a2, -, a3, -, a4, -, a5, -, a6, -, a7, -, rfl⟩ := h; simp [anchorSafe])

theorem parse_default_colors_safe {args : List Value} {e : RedrawEvent}
    (h : parse_default_colors args = .ok e) : anchorSafe e := by
  simp only [parse_default_colors, POutcome.bind_eq_ok] at h
  obtain ⟨r, -, h⟩ := h
  split at h
  all_goals try simp only [POutcome.bind_eq_ok, POutcome.pure_eq_ok, POutcome.ok.injEq] at h
  all_goals first
    | exact POutcome.noConfusion h
    | (obtain rfl := h; simp [anchorSafe])
    | (obtain ⟨a1, -, rfl⟩ := h; simp [anchorSafe])
    | (obtain ⟨a1, -, a2, -, rfl⟩ := h; simp [anchorSafe])
    | (obtain ⟨a1, -, a2, -, a3, -, rfl⟩ := h; simp [anchorSafe])
    | (obtain ⟨a1, -, a2, -, a3, -, a4, -, rfl⟩ := h; simp [anchorSafe])
    | (obtain ⟨a1, -, a2, -, a3, -, a4, -, a5, -, rfl⟩ := h; simp [anchorSafe])
    | (obtain ⟨a1, -, a2, -, a3, -, a4, -, a5, -, a6, -, rfl⟩ := h; simp [anchorSafe])
    | (obtain ⟨a1, -, a2, -, a3, -, a4, -, a5, -, a6, -, a7, -, rfl⟩ := h; simp [anchorSafe])

theorem parse_hl_attr_define_safe {args : List Value} {e : RedrawEvent}
    (h : parse_hl_attr_define args = .ok e) : anchorSafe e := by
  simp only [parse_hl_attr_define, POutcome.bind_eq_ok] at h
  obtain ⟨r, -, h⟩ := h
  split at h
  all_goals try simp only [POutcome.bind_eq_ok, POutcome.pure_eq_ok, POutcome.ok.injEq] at h
  all_goals first
    | exact POutcome.noConfusion h
    | (obtain rfl := h; simp [anchorSafe])
    | (obtain ⟨a1, -, rfl⟩ := h; simp [anchorSafe])
    | (obtain ⟨a1, -, a2, -, rfl⟩ := h; simp [anchorSafe])
    | (obtain ⟨a1, -, a2, -, a3, -, rfl⟩ := h; simp [anchorSafe])
    | (obtain ⟨a1, -, a2, -, a3, -, a4, -, rfl⟩ := h; simp [anchorSafe])
    | (obtain ⟨a1, -, a2, -, a3, -, a4, -, a5, -, rfl⟩ := h; simp [anchorSafe])
    | (obtain ⟨a1, -, a2, -, a3, -, a4, -, a5, -, a6, -, rfl⟩ := h; simp [anchorSafe])
    | (obtain ⟨a1, -, a2, -, a3, -, a4, -, a5, -, a6, -, a7, -, rfl⟩ := h; simp [anchorSafe])

theorem parse_grid_line_safe {args : List Value} {e : RedrawEvent}
    (h : parse_grid_line args = .ok e) : anchorSafe e := by
  simp only [parse_grid_line, POutcome.bind_eq_ok] at h
  obtain ⟨r, -, h⟩ := h
  split at h
  all_goals try simp only [POutcome.bind_eq_ok, POutcome.pure_eq_ok, POutcome.ok.injEq] at h
  all_goals first
    | exact POutcome.noConfusion h
    | (obtain rfl := h; simp [anchorSafe])
    | (obtain ⟨a1, -, rfl⟩ := h; simp [anchorSafe])
    | (obtain ⟨a1, -, a2, -, rfl⟩ := h; simp [anchorSafe])
    | (obtain ⟨a1, -, a2, -, a3, -, rfl⟩ := h; simp [anchorSafe])
    | (obtain ⟨a1, -, a2, -, a3, -, a4, -, rfl⟩ := h; simp [anchorSafe])
    | (obtain ⟨a1, -, a2, -, a3, -, a4, -, a5, -, rfl⟩ := h; simp [anchorSafe])
    | (obtain ⟨a1, -, a2, -, a3, -, a4, -, a5, -, a6, -, rfl⟩ := h; simp [anchorSafe])
    | (obtain ⟨a1, -, a2, -, a3, -, a4, -, a5, -, a6, -, a7, -, rfl⟩ := h; simp [anchorSafe])

theorem parse_grid_clear_safe {args : List Value} {e : RedrawEvent}
    (h : parse_grid_clear args = .ok e) : anchorSafe e := by
  simp only [parse_grid_clear, POutcome.bind_eq_ok] at h
  obtain ⟨r, -, h⟩ := h
  split at h
  all_goals try simp only [POutcome.bind_eq_ok, POutcome.pure_eq_ok, POutcome.ok.injEq] at h
  all_goals first
    | exact POutcome.noConfusion h
    | (obtain rfl := h; simp [anchorSafe])
    | (obtain ⟨a1, -, rfl⟩ := h; simp [anchorSafe])
    | (obtain ⟨a1, -, a2, -, rfl⟩ := h; simp [anchorSafe])
    | (obtain ⟨a1, -, a2, -, a3, -, rfl⟩ := h; simp [anchorSafe])
    | (obtain ⟨a1, -, a2, -, a3, -, a4, -, rfl⟩ := h; simp [anchorSafe])
    | (obtain ⟨a1, -, a2, -, a3, -, a4, -, a5, -, rfl⟩ := h; simp [anchorSafe])
    | (obtain ⟨a1, -, a2, -, a3, -, a4, -, a5, -, a6, -, rfl⟩ := h; simp [anchorSafe])
    | (obtain ⟨a1, -, a2, -, a3, -, a4, -, a5, -, a6, -, a7, -, rfl⟩ := h; simp [anchorSafe])

theorem parse_grid_destroy_safe {args : List Value} {e : RedrawEvent}
    (h : parse_grid_destroy args = .ok e) : anchorSafe e := by
  simp only [parse_grid_destroy, POutcome.bind_eq_ok] at h
  obtain ⟨r, -, h⟩ := h
  split at h
  all_goals try simp only [POutcome.bind_eq_ok, POutcome.pure_eq_ok, POutcome.ok.injEq] at h
  all_goals first
    | exact POutcome.noConfusion h
    | (obtain rfl := h; simp [anchorSafe])
    | (obtain ⟨a1, -, rfl⟩ := h; simp [anchorSafe])
    | (obtain ⟨a1, -, a2, -, rfl⟩ := h; simp [anchorSafe])
    | (obtain ⟨a1, -, a2, -, a3, -, rfl⟩ := h; simp [anchorSafe])
    | (obtain ⟨a1, -, a2, -, a3, -, a4, -, rfl⟩ := h; simp [anchorSafe])
    | (obtain ⟨a1, -, a2, -, a3, -, a4, -, a5, -, rfl⟩ := h; simp [anchorSafe])
    | (obtain ⟨a1, -, a2, -, a3, -, a4, -, a5, -, a6, -, rfl⟩ := h; simp [anchorSafe])
    | (obtain ⟨a1, -, a2, -, a3, -, a4, -, a5, -, a6, -, a7, -, rfl⟩ := h; simp [anchorSafe])

theorem parse_grid_cursor_goto_safe {args : List Value} {e : RedrawEvent}
    (h : parse_grid_cursor_goto args = .ok e) : anchorSafe e := by
  simp only [parse_grid_cursor_goto, POutcome.bind_eq_ok] at h
  obtain ⟨r, -, h⟩ := h
  split at h
  all_goals try simp only [POutcome.bind_eq_ok, POutcome.pure_eq_ok, POutcome.ok.injEq] at h
  all_goals first
    | exact POutcome.noConfusion h
    | (obtain rfl := h; simp [anchorSafe])
    | (obtain ⟨a1, -, rfl⟩ := h; simp [anchorSafe])
    | (obtain ⟨a1, -, a2, -, rfl⟩ := h; simp [anchorSafe])
    | (obtain ⟨a1, -, a2, -, a3, -, rfl⟩ := h; simp [anchorSafe])
    | (obtain ⟨a1, -, a2, -, a3, -, a4, -, rfl⟩ := h; simp [anchorSafe])
    | (obtain ⟨a1, -, a2, -, a3, -, a4, -, a5, -, rfl⟩ := h; simp [anchorSafe])
    | (obtain ⟨a1, -, a2, -, a3, -, a4, -, a5, -, a6, -, rfl⟩ := h; simp [anchorSafe])
    | (obtain ⟨a1, -, a2, -, a3, -, a4, -, a5, -, a6, -, a7, -, rfl⟩ := h; simp [anchorSafe])

theorem parse_grid_scroll_safe {args : List Value} {e : RedrawEvent}
    (h : parse_grid_scroll args = .ok e) : anchorSafe e := by
  simp only [parse_grid_scroll, POutcome.bind_eq_ok] at h
  obtain ⟨r, -, h⟩ := h
  split at h
  all_goals try simp only [POutcome.bind_eq_ok, POutcome.pure_eq_ok, POutcome.ok.injEq] at h
  all_goals first
    | exact POutcome.noConfusion h
    | (obtain rfl := h; simp [anchorSafe])
    | (obtain ⟨a1, -, rfl⟩ := h; simp [anchorSafe])
    | (obtain ⟨a1, -, a2, -, rfl⟩ := h; simp [anchorSafe])
    | (obtain ⟨a1, -, a2, -, a3, -, rfl⟩ := h; simp [anchorSafe])
    | (obtain ⟨a1, -, a2, -, a3, -, a4, -, rfl⟩ := h; simp [anchorSafe])
    | (obtain ⟨a1, -, a2, -, a3, -, a4, -, a5, -, rfl⟩ := h; simp [anchorSafe])
    | (obtain ⟨a1, -, a2, -, a3, -, a4, -, a5, -, a6, -, rfl⟩ := h; simp [anchorSafe])
    | (obtain ⟨a1, -, a2, -, a3, -, a4, -, a5, -, a6, -, a7, -, rfl⟩ := h; simp [anchorSafe])

theorem parse_win_pos_safe {args : List Value} {e : RedrawEvent}
    (h : parse_win_pos args = .ok e) : anchorSafe e := by
  simp only [parse_win_pos, POutcome.bind_eq_ok] at h
  obtain ⟨r, -, h⟩ := h
  split at h
  all_goals try simp only [POutcome.bind_eq_ok, POutcome.pure_eq_ok, POutcome.ok.injEq] at h
  all_goals first
    | exact POutcome.noConfusion h
    | (obtain rfl := h; simp [anchorSafe])
    | (obtain ⟨a1, -, rfl⟩ := h; simp [anchorSafe])
    | (obtain ⟨a1, -, a2, -, rfl⟩ := h; simp [anchorSafe])
    | (obtain ⟨a1, -, a2, -, a3, -, rfl⟩ := h; simp [anchorSafe])
    | (obtain ⟨a1, -, a2, -, a3, -, a4, -, rfl⟩ := h; simp [anchorSafe])
    | (obtain ⟨a1, -, a2, -, a3, -, a4, -, a5, -, rfl⟩ := h; simp [anchorSafe])
    | (obtain ⟨a1, -, a2, -, a3, -, a4, -, a5, -, a6, -, rfl⟩ := h; simp [anchorSafe])
    | (obtain ⟨a1, -, a2, -, a3, -, a4, -, a5, -, a6, -, a7, -, rfl⟩ := h; simp [anchorSafe])

theorem parse_win_external_pos_safe {args : List Value} {e : RedrawEvent}
    (h : parse_win_external_pos args = .ok e) : anchorSafe e := by
  simp only [parse_win_external_pos, POutcome.bind_eq_ok] at h
  obtain ⟨r, -, h⟩ := h
  split at h
  all_goals try simp only [POutcome.bind_eq_ok, POutcome.pure_eq_ok, POutcome.ok.injEq] at h
  all_goals first
    | exact POutcome.noConfusion h
    | (obtain rfl := h; simp [anchorSafe])
    | (obtain ⟨a1, -, rfl⟩ := h; simp [anchorSafe])
    | (obtain ⟨a1, -, a2, -, rfl⟩ := h; simp [anchorSafe])
    | (obtain ⟨a1, -, a2, -, a3, -, rfl⟩ := h; simp [anchorSafe])
    | (obtain ⟨a1, -, a2, -, a3, -, a4, -, rfl⟩ := h; simp [anchorSafe])
    | (obtain ⟨a1, -, a2, -, a3, -, a4, -, a5, -, rfl⟩ := h; simp [anchorSafe])
    | (obtain ⟨a1, -, a2, -, a3, -, a4, -, a5, -, a6, -, rfl⟩ := h; simp [anchorSafe])
    | (obtain ⟨a1, -, a2, -, a3, -, a4, -, a5, -, a6, -, a7, -, rfl⟩ := h; simp [anchorSafe])

theorem parse_win_hide_safe {args : List Value} {e : RedrawEvent}
    (h : parse_win_hide args = .ok e) : anchorSafe e := by
  simp only [parse_win_hide, POutcome.bind_eq_ok] at h
  obtain ⟨r, -, h⟩ := h
  split at h
  all_goals try simp only [POutcome.bind_eq_ok, POutcome.pure_eq_ok, POutcome.ok.injEq] at h
  all_goals first
    | exact POutcome.noConfusion h
    | (obtain rfl := h; simp [anchorSafe])
    | (obtain ⟨a1, -, rfl⟩ := h; simp [anchorSafe])
    | (obtain ⟨a1, -, a2, -, rfl⟩ := h; simp [anchorSafe])
    | (obtain ⟨a1, -, a2, -, a3, -, rfl⟩ := h; simp [anchorSafe])
    | (obtain ⟨a1, -, a2, -, a3, -, a4, -, rfl⟩ := h; simp [anchorSafe])
    | (obtain ⟨a1, -, a2, -, a3, -, a4, -, a5, -, rfl⟩ := h; simp [anchorSafe])
    | (obtain ⟨a1, -, a2, -, a3, -, a4, -, a5, -, a6, -, rfl⟩ := h; simp [anchorSafe])
    | (obtain ⟨a1, -, a2, -, a3, -, a4, -, a5, -, a6, -, a7, -, rfl⟩ := h; simp [anchorSafe])

theorem parse_win_close_safe {args : List Value} {e : RedrawEvent}
    (h : parse_win_close args = .ok e) : anchorSafe e := by
  simp only [parse_win_close, POutcome.bind_eq_ok] at h
  obtain ⟨r, -, h⟩ := h
  split at h
  all_goals try simp only [POutcome.bind_eq_ok, POutcome.pure_eq_ok, POutcome.ok.injEq] at h
  all_goals first
    | exact POutcome.noConfusion h
    | (obtain rfl := h; simp [anchorSafe])
    | (obtain ⟨a1, -, rfl⟩ := h; simp [anchorSafe])
    | (obtain ⟨a1, -, a2, -, rfl⟩ := h; simp [anchorSafe])
    | (obtain ⟨a1, -, a2, -, a3, -, rfl⟩ := h; simp [anchorSafe])
    | (obtain ⟨a1, -, a2, -, a3, -, a4, -, rfl⟩ := h; simp [anchorSafe])
    | (obtain ⟨a1, -, a2, -, a3, -, a4, -, a5, -, rfl⟩ := h; simp [anchorSafe])
    | (obtain ⟨a1, -, a2, -, a3, -, a4, -, a5, -, a6, -, rfl⟩ := h; simp [anchorSafe])
    | (obtain ⟨a1, -, a2, -, a3, -, a4, -, a5, -, a6, -, a7, -, rfl⟩ := h; simp [anchorSafe])

theorem parse_msg_set_pos_safe {args : List Value} {e : RedrawEvent}
    (h : parse_msg_set_pos args = .ok e) : anchorSafe e := by
  simp only [parse_msg_set_pos, POutcome.bind_eq_ok] at h
  obtain ⟨r, -, h⟩ := h
  split at h
  all_goals try simp only [POutcome.bind_eq_ok, POutcome.pure_eq_ok, POutcome.ok.injEq] at h
  all_goals first
    | exact POutcome.noConfusion h
    | (obtain rfl := h; simp [anchorSafe])
    | (obtain ⟨a1, -, rfl⟩ := h; simp [anchorSafe])
    | (obtain ⟨a1, -, a2, -, rfl⟩ := h; simp [anchorSafe])
    | (obtain ⟨a1, -, a2, -, a3, -, rfl⟩ := h; simp [anchorSafe])
    | (obtain ⟨a1, -, a2, -, a3, -, a4, -, rfl⟩ := h; simp [anchorSafe])
    | (obtain ⟨a1, -, a2, -, a3, -, a4, -, a5, -, rfl⟩ := h; simp [anchorSafe])
    | (obtain ⟨a1, -, a2, -, a3, -, a4, -, a5, -, a6, -, rfl⟩ := h; simp [anchorSafe])
    | (obtain ⟨a1, -, a2, -, a3, -, a4, -, a5, -, a6, -, a7, -, rfl⟩ := h; simp [anchorSafe])

theorem parse_win_viewport_safe {args : List Value} {e : RedrawEvent}
    (h : parse_win_viewport args = .ok e) : anchorSafe e := by
  simp only [parse_win_viewport, POutcome.bind_eq_ok] at h
  obtain ⟨r, -, h⟩ := h
  split at h
  all_goals try simp only [POutcome.bind_eq_ok, POutcome.pure_eq_ok, POutcome.ok.injEq] at h
  all_goals first
    | exact POutcome.noConfusion h
    | (obtain rfl := h; simp [anchorSafe])
    | (obtain ⟨a1, -, rfl⟩ := h; simp [anchorSafe])
    | (obtain ⟨a1, -, a2, -, rfl⟩ := h; simp [anchorSafe])
    | (obtain ⟨a1, -, a2, -, a3, -, rfl⟩ := h; simp [anchorSafe])
    | (obtain ⟨a1, -, a2, -, a3, -, a4, -, rfl⟩ := h; simp [anchorSafe])
    | (obtain ⟨a1, -, a2, -, a3, -, a4, -, a5, -, rfl⟩ := h; simp [anchorSafe])
    | (obtain ⟨a1, -, a2, -, a3, -, a4, -, a5, -, a6, -, rfl⟩ := h; simp [anchorSafe])
    | (obtain ⟨a1, -, a2, -, a3, -, a4, -, a5, -, a6, -, a7, -, rfl⟩ := h; simp [anchorSafe])

theorem parse_win_viewport_margins_safe {args : List Value} {e : RedrawEvent}
    (h : parse_win_viewport_margins args = .ok e) : anchorSafe e := by
  simp only [parse_win_viewport_margins, POutcome.bind_eq_ok] at h
  obtain ⟨r, -, h⟩ := h
  split at h
  all_goals try simp only [POutcome.bind_eq_ok, POutcome.pure_eq_ok, POutcome.ok.injEq] at h
  all_goals first
    | exact POutcome.noConfusion h
    | (obtain rfl := h; simp [anchorSafe])
    | (obtain ⟨a1, -, rfl⟩ := h; simp [anchorSafe])
    | (obtain ⟨a1, -, a2, -, rfl⟩ := h; simp [anchorSafe])
    | (obtain ⟨a1, -, a2, -, a3, -, rfl⟩ := h; simp [anchorSafe])
    | (obtain ⟨a1, -, a2, -, a3, -, a4, -, rfl⟩ := h; simp [anchorSafe])
    | (obtain ⟨a1, -, a2, -, a3, -, a4, -, a5, -, rfl⟩ := h; simp [anchorSafe])
    | (obtain ⟨a1, -, a2, -, a3, -, a4, -, a5, -, a6, -, rfl⟩ := h; simp [anchorSafe])
    | (obtain ⟨a1, -, a2, -, a3, -, a4, -, a5, -, a6, -, a7, -, rfl⟩ := h; simp [anchorSafe])

theorem parse_cmdline_show_safe {args : List Value} {e : RedrawEvent}
    (h : parse_cmdline_show args = .ok e) : anchorSafe e := by
  simp only [parse_cmdline_show, POutcome.bind_eq_ok] at h
  obtain ⟨r, -, h⟩ := h
  split at h
  all_goals try simp only [POutcome.bind_eq_ok, POutcome.pure_eq_ok, POutcome.ok.injEq] at h
  all_goals first
    | exact POutcome.noConfusion h
    | (obtain rfl := h; simp [anchorSafe])
    | (obtain ⟨a1, -, rfl⟩ := h; simp [anchorSafe])
    | (obtain ⟨a1, -, a2, -, rfl⟩ := h; simp [anchorSafe])
    | (obtain ⟨a1, -, a2, -, a3, -, rfl⟩ := h; simp [anchorSafe])
    | (obtain ⟨a1, -, a2, -, a3, -, a4, -, rfl⟩ := h; simp [anchorSafe])
    | (obtain ⟨a1, -, a2, -, a3, -, a4, -, a5, -, rfl⟩ := h; simp [anchorSafe])
    | (obtain ⟨a1, -, a2, -, a3, -, a4, -, a5, -, a6, -, rfl⟩ := h; simp [anchorSafe])
    | (obtain ⟨a1, -, a2, -, a3, -, a4, -, a5, -, a6, -, a7, -, rfl⟩ := h; simp [anchorSafe])

theorem parse_cmdline_pos_safe {args : List Value} {e : RedrawEvent}
    (h : parse_cmdline_pos args = .ok e) : anchorSafe e := by
  simp only [parse_cmdline_pos, POutcome.bind_eq_ok] at h
  obtain ⟨r, -, h⟩ := h
  split at h
  all_goals try simp only [POutcome.bind_eq_ok, POutcome.pure_eq_ok, POutcome.ok.injEq] at h
  all_goals first
    | exact POutcome.noConfusion h
    | (obtain rfl := h; simp [anchorSafe])
    | (obtain ⟨a1, -, rfl⟩ := h; simp [anchorSafe])
    | (obtain ⟨a1, -, a2, -, rfl⟩ := h; simp [anchorSafe])
    | (obtain ⟨a1, -, a2, -, a3, -, rfl⟩ := h; simp [anchorSafe])
    | (obtain ⟨a1, -, a2, -, a3, -, a4, -, rfl⟩ := h; simp [anchorSafe])
    | (obtain ⟨a1, -, a2, -, a3, -, a4, -, a5, -, rfl⟩ := h; simp [anchorSafe])
    | (obtain ⟨a1, -, a2, -, a3, -, a4, -, a5, -, a6, -, rfl⟩ := h; simp [anchorSafe])
    | (obtain ⟨a1, -, a2, -, a3, -, a4, -, a5, -, a6, -, a7, -, rfl⟩ := h; simp [anchorSafe])

theorem parse_cmdline_special_char_safe {args : List Value} {e : RedrawEvent}
    (h : parse_cmdline_special_char args = .ok e) : anchorSafe e := by
  simp only [parse_cmdline_special_char, POutcome.bind_eq_ok] at h
  obtain ⟨r, -, h⟩ := h
  split at h
  all_goals try simp only [POutcome.bind_eq_ok, POutcome.pure_eq_ok, POutcome.ok.injEq] at h
  all_goals first
    | exact POutcome.noConfusion h
    | (obtain rfl := h; simp [anchorSafe])
    | (obtain ⟨a1, -, rfl⟩ := h; simp [anchorSafe])
    | (obtain ⟨a1, -, a2, -, rfl⟩ := h; simp [anchorSafe])
    | (obtain ⟨a1, -, a2, -, a3, -, rfl⟩ := h; simp [anchorSafe])
    | (obtain ⟨a1, -, a2, -, a3, -, a4, -, rfl⟩ := h; simp [anchorSafe])
    | (obtain ⟨a1, -, a2, -, a3, -, a4, -, a5, -, rfl⟩ := h; simp [anchorSafe])
    | (obtain ⟨a1, -, a2, -, a3, -, a4, -, a5, -, a6, -, rfl⟩ := h; simp [anchorSafe])
    | (obtain ⟨a1, -, a2, -, a3, -, a4, -, a5, -, a6, -, a7, -, rfl⟩ := h; simp [anchorSafe])

theorem parse_cmdline_block_show_safe {args : List Value} {e : RedrawEvent}
    (h : parse_cmdline_block_show args = .ok e) : anchorSafe e := by
  simp only [parse_cmdline_block_show, POutcome.bind_eq_ok] at h
  obtain ⟨r, -, h⟩ := h
  split at h
  all_goals try simp only [POutcome.bind_eq_ok, POutcome.pure_eq_ok, POutcome.ok.injEq] at h
  all_goals first
    | exact POutcome.noConfusion h
    | (obtain rfl := h; simp [anchorSafe])
    | (obtain ⟨a1, -, rfl⟩ := h; simp [anchorSafe])
    | (obtain ⟨a1, -, a2, -, rfl⟩ := h; simp [anchorSafe])
    | (obtain ⟨a1, -, a2, -, a3, -, rfl⟩ := h; simp [anchorSafe])
    | (obtain ⟨a1, -, a2, -, a3, -, a4, -, rfl⟩ := h; simp [anchorSafe])
    | (obtain ⟨a1, -, a2, -, a3, -, a4, -, a5, -, rfl⟩ := h; simp [anchorSafe])
    | (obtain ⟨a1, -, a2, -, a3, -, a4, -, a5, -, a6, -, rfl⟩ := h; simp [anchorSafe])
    | (obtain ⟨a1, -, a2, -, a3, -, a4, -, a5, -, a6, -, a7, -, rfl⟩ := h; simp [anchorSafe])

theorem parse_cmdline_block_append_safe {args : List Value} {e : RedrawEvent}
    (h : parse_cmdline_block_append args = .ok e) : anchorSafe e := by
  simp only [parse_cmdline_block_append, POutcome.bind_eq_ok] at h
  obtain ⟨r, -, h⟩ := h
  split at h
  all_goals try simp only [POutcome.bind_eq_ok, POutcome.pure_eq_ok, POutcome.ok.injEq] at h
  all_goals first
    | exact POutcome.noConfusion h
    | (obtain rfl := h; simp [anchorSafe])
    | (obtain ⟨a1, -, rfl⟩ := h; simp [anchorSafe])
    | (obtain ⟨a1, -, a2, -, rfl⟩ := h; simp [anchorSafe])
    | (obtain ⟨a1, -, a2, -, a3, -, rfl⟩ := h; simp [anchorSafe])
    | (obtain ⟨a1, -, a2, -, a3, -, a4, -, rfl⟩ := h; simp [anchorSafe])
    | (obtain ⟨a1, -, a2, -, a3, -, a4, -, a5, -, rfl⟩ := h; simp [anchorSafe])
    | (obtain ⟨a1, -, a2, -, a3, -, a4, -, a5, -, a6, -, rfl⟩ := h; simp [anchorSafe])
    | (obtain ⟨a1, -, a2, -, a3, -, a4, -, a5, -, a6, -, a7, -, rfl⟩ := h; simp [anchorSafe])

theorem parse_msg_show_safe {args : List Value} {e : RedrawEvent}
    (h : parse_msg_show args = .ok e) : anchorSafe e := by
  simp only [parse_msg_show, POutcome.bind_eq_ok] at h
  obtain ⟨r, -, h⟩ := h
  split at h
  all_goals try simp only [POutcome.bind_eq_ok, POutcome.pure_eq_ok, POutcome.ok.injEq] at h
  all_goals first
    | exact POutcome.noConfusion h
    | (obtain rfl := h; simp [anchorSafe])
    | (obtain ⟨a1, -, rfl⟩ := h; simp [anchorSafe])
    | (obtain ⟨a1, -, a2, -, rfl⟩ := h; simp [anchorSafe])
    | (obtain ⟨a1, -, a2, -, a3, -, rfl⟩ := h; simp [anchorSafe])
    | (obtain ⟨a1, -, a2, -, a3, -, a4, -, rfl⟩ := h; simp [anchorSafe])
    | (obtain ⟨a1, -, a2, -, a3, -, a4, -, a5, -, rfl⟩ := h; simp [anchorSafe])
    | (obtain ⟨a1, -, a2, -, a3, -, a4, -, a5, -, a6, -, rfl⟩ := h; simp [anchorSafe])
    | (obtain ⟨a1, -, a2, -, a3, -, a4, -, a5, -, a6, -, a7, -, rfl⟩ := h; simp [anchorSafe])

theorem parse_msg_showmode_safe {args : List Value} {e : RedrawEvent}
    (h : parse_msg_showmode args = .ok e) : anchorSafe e := by
  simp only [parse_msg_showmode, POutcome.bind_eq_ok] at h
  obtain ⟨r, -, h⟩ := h
  split at h
  all_goals try simp only [POutcome.bind_eq_ok, POutcome.pure_eq_ok, POutcome.ok.injEq] at h
  all_goals first
    | exact POutcome.noConfusion h
    | (obtain rfl := h; simp [anchorSafe])
    | (obtain ⟨a1, -, rfl⟩ := h; simp [anchorSafe])
    | (obtain ⟨a1, -, a2, -, rfl⟩ := h; simp [anchorSafe])
    | (obtain ⟨a1, -, a2, -, a3, -, rfl⟩ := h; simp [anchorSafe])
    | (obtain ⟨a1, -, a2, -, a3, -, a4, -, rfl⟩ := h; simp [anchorSafe])
    | (obtain ⟨a1, -, a2, -, a3, -, a4, -, a5, -, rfl⟩ := h; simp [anchorSafe])
    | (obtain ⟨a1, -, a2, -, a3, -, a4, -, a5, -, a6, -, rfl⟩ := h; simp [anchorSafe])
    | (obtain ⟨a1, -, a2, -, a3, -, a4, -, a5, -, a6, -, a7, -, rfl⟩ := h; simp [anchorSafe])

theorem parse_msg_showcmd_safe {args : List Value} {e : RedrawEvent}
    (h : parse_msg_showcmd args = .ok e) : anchorSafe e := by
  simp only [parse_msg_showcmd, POutcome.bind_eq_ok] at h
  obtain ⟨r, -, h⟩ := h
  split at h
  all_goals try simp only [POutcome.bind_eq_ok, POutcome.pure_eq_ok, POutcome.ok.injEq] at h
  all_goals first
    | exact POutcome.noConfusion h
    | (obtain rfl := h; simp [anchorSafe])
    | (obtain ⟨a1, -, rfl⟩ := h; simp [anchorSafe])
    | (obtain ⟨a1, -, a2, -, rfl⟩ := h; simp [anchorSafe])
    | (obtain ⟨a1, -, a2, -, a3, -, rfl⟩ := h; simp [anchorSafe])
    | (obtain ⟨a1, -, a2, -, a3, -, a4, -, rfl⟩ := h; simp [anchorSafe])
    | (obtain ⟨a1, -, a2, -, a3, -, a4, -, a5, -, rfl⟩ := h; simp [anchorSafe])
    | (obtain ⟨a1, -, a2, -, a3, -, a4, -, a5, -, a6, -, rfl⟩ := h; simp [anchorSafe])
    | (obtain ⟨a1, -, a2, -, a3, -, a4, -, a5, -, a6, -, a7, -, rfl⟩ := h; simp [anchorSafe])

theorem parse_msg_ruler_safe {args : List Value} {e : RedrawEvent}
    (h : parse_msg_ruler args = .ok e) : anchorSafe e := by
  simp only [parse_msg_ruler, POutcome.bind_eq_ok] at h
  obtain ⟨r, -, h⟩ := h
  split at h
  all_goals try simp only [POutcome.bind_eq_ok, POutcome.pure_eq_ok, POutcome.ok.injEq] at h
  all_goals first
    | exact POutcome.noConfusion h
    | (obtain rfl := h; simp [anchorSafe])
    | (obtain ⟨a1, -, rfl⟩ := h; simp [anchorSafe])
    | (obtain ⟨a1, -, a2, -, rfl⟩ := h; simp [anchorSafe])
    | (obtain ⟨a1, -, a2, -, a3, -, rfl⟩ := h; simp [anchorSafe])
    | (obtain ⟨a1, -, a2, -, a3, -, a4, -, rfl⟩ := h; simp [anchorSafe])
    | (obtain ⟨a1, -, a2, -, a3, -, a4, -, a5, -, rfl⟩ := h; simp [anchorSafe])
    | (obtain ⟨a1, -, a2, -, a3, -, a4, -, a5, -, a6, -, rfl⟩ := h; simp [anchorSafe])
    | (obtain ⟨a1, -, a2, -, a3, -, a4, -, a5, -, a6, -, a7, -, rfl⟩ := h; simp [anchorSafe])

theorem parse_msg_history_show_safe {args : List Value} {e : RedrawEvent}
    (h : parse_msg_history_show args = .ok e) : anchorSafe e := by
  simp only [parse_msg_history_show, POutcome.bind_eq_ok] at h
  obtain ⟨r, -, h⟩ := h
  split at h
  all_goals try simp only [POutcome.bind_eq_ok, POutcome.pure_eq_ok, POutcome.ok.injEq] at h
  all_goals first
    | exact POutcome.noConfusion h
    | (obtain rfl := h; simp [anchorSafe])
    | (obtain ⟨a1, -, rfl⟩ := h; simp [anchorSafe])
    | (obtain ⟨a1, -, a2, -, rfl⟩ := h; simp [anchorSafe])
    | (obtain ⟨a1, -, a2, -, a3, -, rfl⟩ := h; simp [anchorSafe])
    | (obtain ⟨a1, -, a2, -, a3, -, a4, -, rfl⟩ := h; simp [anchorSafe])
    | (obtain ⟨a1, -, a2, -, a3, -, a4, -, a5, -, rfl⟩ := h; simp [anchorSafe])
    | (obtain ⟨a1, -, a2, -, a3, -, a4, -, a5, -, a6, -, rfl⟩ := h; simp [anchorSafe])
    | (obtain ⟨a1, -, a2, -, a3, -, a4, -, a5, -, a6, -, a7, -, rfl⟩ := h; simp [anchorSafe])

theorem parse_win_float_pos_safe {args : List Value} {e : RedrawEvent}
    (h : parse_win_float_pos args = .ok e) : anchorSafe e := by
  simp only [parse_win_float_pos, POutcome.bind_eq_ok] at h
  obtain ⟨r, -, h⟩ := h
  split at h
  · simp only [POutcome.bind_eq_ok, POutcome.pure_eq_ok, POutcome.ok.injEq] at h
    obtain ⟨g, -, a, ha, ag, -, ar, -, ac, -, me, -, z, -, ci, -, sr, -, sc, -, rfl⟩ := h
    intro g' a' ag' ar' ac' me' z' ci' sr' sc' heq
    injection heq with h1 h2 h3 h4 h5 h6 h7 h8 h9 h10
    subst h2
    exact parse_window_anchor_not_absolute ha
  all_goals exact POutcome.noConfusion h

theorem parse_option_set_safe {args : List Value} {e : RedrawEvent}
    (h : parse_option_set args = .ok e) : anchorSafe e := by
  simp only [parse_option_set, POutcome.bind_eq_ok] at h
  obtain ⟨r, -, h⟩ := h
  split at h
  · simp only [POutcome.bind_eq_ok] at h
    obtain ⟨nm, -, h⟩ := h
    split at h
    all_goals try simp only [POutcome.bind_eq_ok, POutcome.pure_eq_ok, POutcome.ok.injEq] at h
    all_goals first
      | exact POutcome.noConfusion h
      | (obtain rfl := h; simp [anchorSafe])
      | (obtain ⟨a1, -, rfl⟩ := h; simp [anchorSafe])
  · exact POutcome.noConfusion h

/-- Any event that the dispatch table successfully produces is anchor-safe. -/
theorem dispatchOne_ok_safe {name : String} {ps : List Value} {e : RedrawEvent}
    (h : dispatchOne name ps = some (.ok e)) : anchorSafe e := by
  unfold dispatchOne at h
  split at h
  · exact parse_set_title_safe (Option.some.inj h)
  · exact Option.noConfusion h
  · exact parse_mode_info_set_safe (Option.some.inj h)
  · exact parse_option_set_safe (Option.some.inj h)
  · exact parse_mode_change_safe (Option.some.inj h)
  · obtain rfl : RedrawEvent.MouseOn = e := POutcome.ok.inj (Option.some.inj h)
    simp [anchorSafe]
  · obtain rfl : RedrawEvent.MouseOff = e := POutcome.ok.inj (Option.some.inj h)
    simp [anchorSafe]
  · obtain rfl : RedrawEvent.BusyStart = e := POutcome.ok.inj (Option.some.inj h)
    simp [anchorSafe]
  · obtain rfl : RedrawEvent.BusyStop = e := POutcome.ok.inj (Option.some.inj h)
    simp [anchorSafe]
  · obtain rfl : RedrawEvent.Flush = e := POutcome.ok.inj (Option.some.inj h)
    simp [anchorSafe]
  · exact parse_grid_resize_safe (Option.some.inj h)
  · exact parse_default_colors_safe (Option.some.inj h)
  · exact parse_hl_attr_define_safe (Option.some.inj h)
  · exact parse_grid_line_safe (Option.some.inj h)
  · exact parse_grid_clear_safe (Option.some.inj h)
  · exact parse_grid_destroy_safe (Option.some.inj h)
  · exact parse_grid_cursor_goto_safe (Option.some.inj h)
  · exact parse_grid_scroll_safe (Option.some.inj h)
  · exact parse_win_pos_safe (Option.some.inj h)
  · exact parse_win_float_pos_safe (Option.some.inj h)
  · exact parse_win_external_pos_safe (Option.some.inj h)
  · exact parse_win_hide_safe (Option.some.inj h)
  · exact parse_win_close_safe (Option.some.inj h)
  · exact parse_msg_set_pos_safe (Option.some.inj h)
  · exact parse_win_viewport_safe (Option.some.inj h)
  · exact parse_win_viewport_margins_safe (Option.some.inj h)
  · exact parse_cmdline_show_safe (Option.some.inj h)
  · exact parse_cmdline_pos_safe (Option.some.inj h)
  · exact parse_cmdline_special_char_safe (Option.some.inj h)
  · obtain rfl : RedrawEvent.CommandLineHide = e := POutcome.ok.inj (Option.some.inj h)
    simp [anchorSafe]
  · exact parse_cmdline_block_show_safe (Option.some.inj h)
  · exact parse_cmdline_block_append_safe (Option.some.inj h)
  · obtain rfl : RedrawEvent.CommandLineBlockHide = e := POutcome.ok.inj (Option.some.inj h)
    simp [anchorSafe]
  · exact parse_msg_show_safe (Option.some.inj h)
  · obtain rfl : RedrawEvent.MessageClear = e := POutcome.ok.inj (Option.some.inj h)
    simp [anchorSafe]
  · exact parse_msg_showmode_safe (Option.some.inj h)
  · exact parse_msg_showcmd_safe (Option.some.inj h)
  · exact parse_msg_ruler_safe (Option.some.inj h)
  · exact parse_msg_history_show_safe (Option.some.inj h)
  · obtain rfl : RedrawEvent.Suspend = e := POutcome.ok.inj (Option.some.inj h)
    simp [anchorSafe]
  · exact Option.noConfusion h

/-- Every event in a successful decode is anchor-safe. -/
theorem processEvents_safe {name : String} :
    ∀ {params : List Value} {evs : List RedrawEvent},
      processEvents name params = .ok evs → ∀ e ∈ evs, anchorSafe e := by
  intro params
  induction params with
  | nil =>
    intro evs h e he
    simp only [processEvents] at h
    obtain rfl : [] = evs := POutcome.ok.inj h
    exact absurd he (List.not_mem_nil e)
  | cons p rest ih =>
    intro evs h e he
    simp only [processEvents] at h
    cases hpa : parse_array p with
    | err e2 => simp [hpa] at h
    | panic => simp [hpa] at h
    | ok ps =>
      simp only [hpa] at h
      cases hd : dispatchOne name ps with
      | none =>
        simp only [hd] at h
        exact ih h e he
      | some out =>
        cases out with
        | ok ev =>
          simp only [hd] at h
          cases ht : processEvents name rest with
          | ok tl =>
            simp only [ht] at h
            obtain rfl : ev :: tl = evs := POutcome.ok.inj h
            rcases List.mem_cons.mp he with rfl | he2
            · exact dispatchOne_ok_safe hd
            · exact ih ht e he2
          | err e2 => simp [ht] at h
          | panic => simp [ht] at h
        | err e2 => simp [hd] at h
        | panic => simp [hd] at h

/-- Claim C10: `parse_window_anchor` never returns `Absolute`, so every
`WindowFloatPosition` event produced by the decoder carries one of the four
compass anchors; `Absolute` is constructible but unreachable from the wire. -/
theorem C10_no_absolute_anchor :
    (∀ v : Value, parse_window_anchor v ≠ .ok .Absolute) ∧
    (∀ (payload : Value) (evs : List RedrawEvent),
      parse_redraw_event payload = .ok evs →
      ∀ e ∈ evs, ∀ g a ag ar ac me z ci sr sc,
        e = RedrawEvent.WindowFloatPosition g a ag ar ac me z ci sr sc →
        a ≠ .Absolute) := by
  constructor
  · intro v hcon
    exact parse_window_anchor_not_absolute hcon rfl
  · intro payload evs h e he
    unfold parse_redraw_event at h
    split at h
    · exact absurd h (by simp)
    · exact absurd h (by simp)
    · exact absurd h (by simp)
    · split at h
      · exact absurd h (by simp)
      · exact absurd h (by simp)
      · exact processEvents_safe h e he

/-- Witness for C10: a concrete successful `win_float_pos` decode carries a
compass anchor. -/
theorem C10_no_absolute_anchor_witness :
    WindowAnchor.NorthWest ≠ WindowAnchor.Absolute :=
  C10_no_absolute_anchor.2
    (.Array [.Str (.valid ("win_float_pos")),
      .Array [.Integer 2, .Ext 1 [], .Str (.valid ("NW")), .Integer 1, .F64 0, .F64 0,
        .Boolean true, .Integer 50]])
    [.WindowFloatPosition 2 .NorthWest 1 0 0 true 50 none none none]
    rfl
    (.WindowFloatPosition 2 .NorthWest 1 0 0 true 50 none none none)
    (List.Mem.head _)
    2 .NorthWest 1 0 0 true 50 none none none rfl

